import Mathlib

/-!
# The DummyJSON catalog client (`dummy/products.go`)

A shallow embedding of the Go client: the data model of `products.go`, the HTTP
layer it calls (resty) as an explicit parameter, and the five client operations
as functions that return what the Go code returns together with the list of
HTTP exchanges they performed.
-/

namespace Dummyjson

/-! ## Data model (`products.go`, lines 11-76) -/

/-- Go `float64`, kept as its bit pattern: the client only copies these values. -/
structure Float64 where
  bits : Nat
deriving DecidableEq, Repr

/-- Go `time.Time`, kept as an instant in nanoseconds; `0` is the zero time. -/
structure Time where
  nanos : Int
deriving DecidableEq, Repr

/-- Go `uint` (64 bits): a natural number below `2 ^ 64`. -/
abbrev Uint := Fin (2 ^ 64)

/-- Go `uint8`: a natural number below `2 ^ 8`. -/
abbrev Uint8 := Fin (2 ^ 8)

/-- Go struct `Dimension`. -/
structure Dimension where
  Width : Float64
  Height : Float64
  Depth : Float64
deriving DecidableEq, Repr

/-- Go struct `Meta`. -/
structure Meta where
  CreatedAt : Time
  UpdatedAt : Time
  Barcode : String
  QrCode : String
deriving DecidableEq, Repr

/-- Go struct `Review`. -/
structure Review where
  Rating : Uint8
  Comment : String
  Date : Time
  ReviewerName : String
  ReviewerEmail : String
deriving DecidableEq, Repr

/-- Go struct `Product`. -/
structure Product where
  Id : Int
  Title : String
  Description : String
  Category : String
  Price : Float64
  DiscountPercentage : Float64
  Rating : Float64
  Stock : Uint
  Tags : List String
  Brand : String
  Sku : String
  Weight : Float64
  Dimensions : Dimension
  WarrantyInfo : String
  ShippingInfo : String
  AvailabilityStatus : String
  Reviews : List Review
  ReturnPolicy : String
  MinimumOrderQuantity : Uint
  Meta : Meta
  Thumbnail : String
  Images : List String
  IsDeleted : Bool
  DeletedOn : Time
deriving DecidableEq, Repr

/-- The Go zero value `Product{}`. -/
def Product.zero : Product :=
  { Id := 0, Title := "", Description := "", Category := "", Price := ⟨0⟩,
    DiscountPercentage := ⟨0⟩, Rating := ⟨0⟩, Stock := 0, Tags := [], Brand := "",
    Sku := "", Weight := ⟨0⟩, Dimensions := ⟨⟨0⟩, ⟨0⟩, ⟨0⟩⟩, WarrantyInfo := "",
    ShippingInfo := "", AvailabilityStatus := "", Reviews := [], ReturnPolicy := "",
    MinimumOrderQuantity := 0, Meta := ⟨⟨0⟩, ⟨0⟩, "", ""⟩, Thumbnail := "",
    Images := [], IsDeleted := false, DeletedOn := ⟨0⟩ }

/-- Go struct `ProductResponse`. -/
structure ProductResponse where
  Products : List Product
  Total : Uint
  Skip : Uint
  Limit : Uint
deriving DecidableEq, Repr

/-- The Go zero value of `ProductResponse` (`var prodRes ProductResponse`). -/
def ProductResponse.zero : ProductResponse :=
  { Products := [], Total := 0, Skip := 0, Limit := 0 }

/-- Go struct `DummyError`. -/
structure DummyError where
  Message : String
deriving DecidableEq, Repr

/-! ## Go integers -/

/-- A Go `int` (64 bits, two's complement): the representative of `x` in
`[-2 ^ 63, 2 ^ 63)`. -/
def wrapInt (x : Int) : Int :=
  (x + 2 ^ 63) % 2 ^ 64 - 2 ^ 63

/-- The Go conversion `int(u)` of a `uint`. -/
def intOfUint (u : Uint) : Int :=
  wrapInt (u.val : Int)

/-- Go `strconv.Itoa`: the decimal rendering of an `int`, with a leading `-` when
negative. -/
def Itoa (i : Int) : String :=
  toString i

/-! ## The HTTP layer (resty), as seen by the client -/

/-- HTTP verbs the client uses. -/
inductive Method where
  | GET
  | POST
  | PATCH
  | DELETE
deriving DecidableEq, Repr

/-- One request handed to the HTTP layer: the verb, the path given to `Get`, `Post`,
`Patch` or `Delete`, the query parameters set on the request object (one value per
key, as `SetQueryParams` replaces the value of a key), and the value given to
`SetBody`. -/
structure Request where
  Method : Method
  URL : String
  QueryParam : List (String × String)
  Body : Option Product
deriving DecidableEq, Repr

/-- A non-nil `*resty.Response`: `StatusCode()` (`0` when no HTTP response was
received) and `Body()` as a Go string. -/
structure Response where
  StatusCode : Nat
  Body : String
deriving DecidableEq, Repr

/-- Resty `Response.IsError`: the status code is greater than 399. -/
def Response.IsError (r : Response) : Bool :=
  decide (399 < r.StatusCode)

/-- Resty `Response.IsSuccess`: the status code is in `200 .. 299`. -/
def Response.IsSuccess (r : Response) : Bool :=
  decide (199 < r.StatusCode) && decide (r.StatusCode < 300)

/-- An `error` value produced by the HTTP layer (never a `DummyError`). -/
structure TransportError where
  text : String
deriving DecidableEq, Repr

/-- A Go `error` value as the client returns it. -/
inductive GoError where
  | dummy (de : DummyError)
  | other (e : TransportError)
deriving DecidableEq, Repr

/-- What one call to the HTTP layer yields: the `res` pointer (`none` is `nil`), the
`err` value (`none` is `nil`), and the value that the `SetResult` target holds after
the call. -/
structure Outcome (α : Type) where
  res : Option Response
  err : Option TransportError
  result : α
deriving DecidableEq

/-- The HTTP layer for a result target of type `α`: the outcome of a request, given
how many requests the running operation issued before it and the value the result
target holds when the request is sent. -/
abbrev Transport (α : Type) := Nat → Request → α → Outcome α

/-- One request together with its outcome. -/
structure Exchange (α : Type) where
  req : Request
  out : Outcome α
deriving DecidableEq

/-- How a Go call ends: it returns a value and an `error` (`none` is `nil`), it
aborts with a run-time panic, or it is still executing when the step budget of
the model is used up. -/
inductive Exec (ρ : Type) where
  | returned (val : ρ) (err : Option GoError)
  | panicked
  | running
deriving DecidableEq

/-- An execution of a client operation: the exchanges it performed, in order, and
how it ended. -/
structure Run (α ρ : Type) where
  trace : List (Exchange α)
  exec : Exec ρ
deriving DecidableEq

/-- Put an exchange in front of the trace of the rest of the execution. -/
def Run.after {α ρ : Type} (x : Exchange α) (r : Run α ρ) : Run α ρ :=
  { trace := x :: r.trace, exec := r.exec }

/-- The common tail of every operation (`if res.IsError() ... if err != nil ...`):
inspecting a nil `res` panics, an error status gives a `DummyError` with the body,
a non-nil `err` is passed on, and otherwise `k` continues with the result target. -/
def checked {α ρ : Type} (zero : ρ) (o : Outcome α) (k : α → Run α ρ) : Run α ρ :=
  match o.res with
  | none => { trace := [], exec := .panicked }
  | some res =>
    if res.IsError then
      { trace := [], exec := .returned zero (some (.dummy { Message := res.Body })) }
    else
      match o.err with
      | some e => { trace := [], exec := .returned zero (some (.other e)) }
      | none => k o.result

/-! ## The client operations (`products.go`, lines 82-159) -/

/-- The parameterless request `req.Get("/products")`. -/
def firstRequest : Request :=
  { Method := .GET, URL := "/products", QueryParam := [], Body := none }

/-- The paginated request of the loop body: `limit` and `skip` rendered by
`strconv.Itoa`, listed by key. -/
def pageRequest (limit skip : Int) : Request :=
  { Method := .GET, URL := "/products",
    QueryParam := [("limit", Itoa limit), ("skip", Itoa skip)], Body := none }

/-- The loop `for limit == 30` of `GetProducts`, run for at most `fuel` iterations;
`n` is the number of requests issued so far. A nil list is the empty list.

Items are values here: `products` holds every item as `prodRes` held it when it was
appended. The Go items share the arrays of their `Tags`, `Images` and `Reviews`
with `prodRes`, into which the next response is decoded; what the returned items
show once those arrays have been written again is followed by
`GetProductsInPlaceLoop`. The requests, the decisions and the errors do not depend
on those arrays. -/
def GetProductsLoop (http : Transport ProductResponse) :
    Nat → Nat → Int → Int → ProductResponse → List Product →
      Run ProductResponse (List Product)
  | 0, _, _, limit, _, products =>
    if limit = 30 then { trace := [], exec := .running }
    else { trace := [], exec := .returned products none }
  | fuel + 1, n, skip, limit, prodRes, products =>
    if limit = 30 then
      let o := http n (pageRequest limit skip) prodRes
      Run.after { req := pageRequest limit skip, out := o }
        (checked [] o fun prodRes =>
          GetProductsLoop http fuel (n + 1) (wrapInt (skip + intOfUint prodRes.Limit))
            (intOfUint prodRes.Limit) prodRes (products ++ prodRes.Products))
    else { trace := [], exec := .returned products none }

/-- Go `DummyClient.GetProducts`, with at most `fuel` iterations of its loop. -/
def GetProducts (http : Transport ProductResponse) (fuel : Nat) :
    Run ProductResponse (List Product) :=
  let o := http 0 firstRequest ProductResponse.zero
  Run.after { req := firstRequest, out := o }
    (checked [] o fun prodRes => GetProductsLoop http fuel 1 0 30 prodRes [])

/-- The path `fmt.Sprintf("/products/%d", id)`. -/
def productPath (id : Int) : String :=
  "/products/" ++ Itoa id

/-- A single-request operation: send `rq` with a zero `Product` as result target and
return the target on success. -/
def single (http : Transport Product) (rq : Request) : Run Product Product :=
  let o := http 0 rq Product.zero
  Run.after { req := rq, out := o }
    (checked Product.zero o fun product => { trace := [], exec := .returned product none })

/-- Go `DummyClient.GetProduct`. -/
def GetProduct (http : Transport Product) (id : Int) : Run Product Product :=
  single http { Method := .GET, URL := productPath id, QueryParam := [], Body := none }

/-- Go `DummyClient.UploadProduct`. -/
def UploadProduct (http : Transport Product) (prod : Product) : Run Product Product :=
  single http { Method := .POST, URL := "/products/add", QueryParam := [], Body := some prod }

/-- Go `DummyClient.UpdateProduct`. -/
def UpdateProduct (http : Transport Product) (id : Int) (prod : Product) :
    Run Product Product :=
  single http { Method := .PATCH, URL := productPath id, QueryParam := [], Body := some prod }

/-- Go `DummyClient.DeleteProduct`. -/
def DeleteProduct (http : Transport Product) (id : Int) : Run Product Product :=
  single http { Method := .DELETE, URL := productPath id, QueryParam := [], Body := none }

/-! ## Vocabulary of the statements -/

/-- The outcome lets the operation go on: `res` is present, its status is not an
error status, and `err` is nil. -/
def Outcome.ok {α : Type} (o : Outcome α) : Bool :=
  match o.res, o.err with
  | some r, none => !r.IsError
  | _, _ => false

/-- How an operation ends on an outcome that stops it: a panic on a nil `res`, a
`DummyError` with the body on an error status, and otherwise the `err` of the
HTTP layer; always with the zero value of the result. -/
def abortWith {α ρ : Type} (zero : ρ) (o : Outcome α) : Exec ρ :=
  match o.res with
  | none => .panicked
  | some r =>
    if r.IsError then .returned zero (some (.dummy { Message := r.Body }))
    else .returned zero (o.err.map GoError.other)

/-- Sum of the `limit` values that the given exchanges returned. -/
def sumLimits (xs : List (Exchange ProductResponse)) : Nat :=
  (xs.map fun x => x.out.result.Limit.val).sum

/-- The items that the given exchanges returned, page after page. -/
def pagesOf (xs : List (Exchange ProductResponse)) : List Product :=
  (xs.map fun x => x.out.result.Products).flatten

/-- The page of at most 30 items of `catalog` that starts at position `s`. -/
def pageAt (catalog : List Product) (s : Nat) : List Product :=
  (catalog.drop s).take 30

/-- The transport behaves as a server of `catalog` with fixed pages of 30: the
parameterless request and every request `limit=30&skip=s` are answered without
error, the latter with the items at positions `s .. min (s + 30) N - 1` and with
`limit` equal to the number of items returned. -/
def ServesCatalog (http : Transport ProductResponse) (catalog : List Product) : Prop :=
  (∀ prev, (http 0 firstRequest prev).ok = true) ∧
  ∀ (n s : Nat) (prev : ProductResponse),
    (http n (pageRequest 30 (s : Int)) prev).ok = true ∧
    (http n (pageRequest 30 (s : Int)) prev).result.Products = pageAt catalog s ∧
    (http n (pageRequest 30 (s : Int)) prev).result.Limit.val = (pageAt catalog s).length

/-- The execution ends as its exchanges dictate: either every exchange is ok and the
execution does not end with an error, or its last exchange is the only one that is
not ok and the execution ends as `abortWith` says. -/
def Shaped {α ρ : Type} (R : Run α ρ) (zero : ρ) : Prop :=
  ((∀ x ∈ R.trace, x.out.ok = true) ∧ ∀ v e, R.exec ≠ .returned v (some e)) ∨
  (∃ T0 x, R.trace = T0 ++ [x] ∧ (∀ y ∈ T0, y.out.ok = true) ∧ x.out.ok = false ∧
    R.exec = abortWith zero x.out)

/-- A response with an error status and body `b`, at any exchange, makes the execution
return `zero` together with the `DummyError` whose message is `b`. -/
def RemoteErrorVerbatim {α ρ : Type} (R : Run α ρ) (zero : ρ) : Prop :=
  ∀ x ∈ R.trace, ∀ r, x.out.res = some r → r.IsError = true →
    R.exec = .returned zero (some (.dummy { Message := r.Body }))

/-- A response with a status above 399, at any exchange, makes the execution return
`zero` together with the `DummyError` whose message is the body. -/
def ErrorAbove399 {α ρ : Type} (R : Run α ρ) (zero : ρ) : Prop :=
  ∀ x ∈ R.trace, ∀ r, x.out.res = some r → 399 < r.StatusCode →
    R.exec = .returned zero (some (.dummy { Message := r.Body }))

/-- A response with a status up to 399 and a nil `err` makes a single-request
operation return the result target with a nil error. -/
def NoErrorUpTo399 {α : Type} (R : Run α α) : Prop :=
  ∀ x ∈ R.trace, ∀ r, x.out.res = some r → r.StatusCode ≤ 399 → x.out.err = none →
    R.exec = .returned x.out.result none

/-- A non-nil `err` that comes with a response whose status is not an error status
is returned as it is, together with `zero`. -/
def PassesTransportError {α ρ : Type} (R : Run α ρ) (zero : ρ) : Prop :=
  ∀ x ∈ R.trace, ∀ r e, x.out.res = some r → r.IsError = false → x.out.err = some e →
    R.exec = .returned zero (some (.other e))

/-- The execution returns a `DummyError` if and only if one of its exchanges received
a response with an error status. -/
def DummyErrorIffErrorStatus {α ρ : Type} (R : Run α ρ) : Prop :=
  (∃ v de, R.exec = .returned v (some (.dummy de))) ↔
    ∃ x ∈ R.trace, ∃ r, x.out.res = some r ∧ r.IsError = true

/-! ## Test servers -/

/-- Value of a string of decimal digits read left to right. -/
def digitsValue (cs : List Char) : Nat :=
  cs.foldl (fun a c => 10 * a + (c.toNat - 48)) 0

/-- Reading of an unsigned decimal parameter; `none` when the text is empty or has
a character that is not a digit. -/
def Atoi (s : String) : Option Nat :=
  if s.data ≠ [] ∧ s.data.all Char.isDigit = true then some (digitsValue s.data) else none

/-- The `skip` parameter of a request, `0` when absent or unreadable. -/
def skipOf (rq : Request) : Nat :=
  match rq.QueryParam.lookup "skip" with
  | some v => (Atoi v).getD 0
  | none => 0

/-- A stub server over `catalog`: every request is answered with status 200 and the
page of 30 that starts at the requested `skip`, decoded over the whole result
target. -/
def pagedServer (catalog : List Product) : Transport ProductResponse := fun _ rq _ =>
  { res := some { StatusCode := 200, Body := "" }, err := none,
    result := { Products := pageAt catalog (skipOf rq),
                Total := Fin.ofNat catalog.length,
                Skip := Fin.ofNat (skipOf rq),
                Limit := Fin.ofNat (pageAt catalog (skipOf rq)).length } }

/-- A product with identifier `i + 1` and all other fields zero. -/
def mkProduct (i : Nat) : Product :=
  { Product.zero with Id := (i : Int) + 1 }

/-- A catalog of `n` products with identifiers `1 .. n`. -/
def catalogOf (n : Nat) : List Product :=
  (List.range n).map mkProduct

/-- A transport that answers every request with the same response and error and
stores `result` in the result target. -/
def constTransport {α : Type} (res : Option Response) (err : Option TransportError)
    (result : α) : Transport α := fun _ _ _ =>
  { res := res, err := err, result := result }

/-- A transport that answers the `k`-th request with the `k`-th outcome of a script
and every later request with `last`. -/
def scripted {α : Type} (script : List (Outcome α)) (last : Outcome α) : Transport α :=
  fun k _ _ => script.getD k last

/-! ## Error text (`products.go`, lines 74-76) -/

/-- Go `DummyError.Error`: `fmt.Sprintf("error from the server: %v", de.Message)`. -/
def DummyError.Error (de : DummyError) : String :=
  "error from the server: " ++ de.Message

/-- The text of a Go `error` value, as `%s` prints it. -/
def GoError.Error : GoError → String
  | .dummy de => de.Error
  | .other e => e.text

/-! ## Decoding by the HTTP layer -/

/-- How resty classifies the Content-Type of a response: a JSON type, an XML type,
or anything else (a missing header included). -/
inductive ContentKind where
  | json
  | xml
  | other
deriving DecidableEq, Repr

/-- What the network delivers for a request: the response object, the kind of its
Content-Type, and the error. -/
structure Wire where
  res : Option Response
  kind : ContentKind
  err : Option TransportError
deriving DecidableEq, Repr

/-- The HTTP layer over a network `wire` (resty `parseResponseBody`): when the
request went through without error, the body is decoded into the `SetResult`
target only if the status is a success status other than 204 and the Content-Type
is a JSON or an XML type; `decode` gives the target after decoding and the error
of the decoder, which becomes the `err` of the call. In every other case the
target is left as it is. -/
def decodingTransport {α : Type} (decode : ContentKind → String → α → α × Option TransportError)
    (wire : Nat → Request → Wire) : Transport α := fun n rq target =>
  match (wire n rq).res, (wire n rq).err with
  | some r, none =>
    if r.IsSuccess = true ∧ r.StatusCode ≠ 204 ∧ (wire n rq).kind ≠ .other then
      { res := some r, err := (decode (wire n rq).kind r.Body target).2,
        result := (decode (wire n rq).kind r.Body target).1 }
    else { res := some r, err := none, result := target }
  | res, err => { res := res, err := err, result := target }

/-- Reading of a signed decimal text: an optional leading `-` followed by digits. -/
def AtoiInt (s : String) : Option Int :=
  match s.data with
  | [] => none
  | c :: cs =>
    if c = '-' then
      if cs ≠ [] ∧ cs.all Char.isDigit = true then some (-(digitsValue cs : Int)) else none
    else
      if (c :: cs).all Char.isDigit = true then some (digitsValue (c :: cs) : Int) else none

/-! ## JSON keys of a `Product` (`products.go`, struct tags of lines 18-43) -/

/-- A Go value as `encoding/json` looks at it to decide whether it is empty. -/
inductive GoValue where
  | bool (b : Bool)
  | int (i : Int)
  | uint (u : Nat)
  | float (f : Float64)
  | string (s : String)
  | slice (len : Nat)
  | struct
deriving DecidableEq, Repr

/-- The emptiness test of `encoding/json` for `omitempty`: false, 0, and an empty
slice or string are empty; a struct value never is. -/
def isEmptyValue : GoValue → Bool
  | .bool b => !b
  | .int i => decide (i = 0)
  | .uint u => decide (u = 0)
  | .float f => decide (f.bits = 0) || decide (f.bits = 2 ^ 63)
  | .string s => decide (s.length = 0)
  | .slice len => decide (len = 0)
  | .struct => false

/-- One field of a struct as its `json` tag describes it. -/
structure JsonField where
  key : String
  omitempty : Bool
  value : GoValue
deriving DecidableEq, Repr

/-- The fields of a `Product` with their `json` tags, in declaration order. -/
def Product.jsonFields (p : Product) : List JsonField :=
  [ { key := "id", omitempty := false, value := .int p.Id },
    { key := "title", omitempty := false, value := .string p.Title },
    { key := "description", omitempty := false, value := .string p.Description },
    { key := "category", omitempty := false, value := .string p.Category },
    { key := "price", omitempty := false, value := .float p.Price },
    { key := "discountPercentage", omitempty := false, value := .float p.DiscountPercentage },
    { key := "rating", omitempty := false, value := .float p.Rating },
    { key := "stock", omitempty := false, value := .uint p.Stock.val },
    { key := "tags", omitempty := false, value := .slice p.Tags.length },
    { key := "brand", omitempty := false, value := .string p.Brand },
    { key := "sku", omitempty := false, value := .string p.Sku },
    { key := "weight", omitempty := false, value := .float p.Weight },
    { key := "dimensions", omitempty := false, value := .struct },
    { key := "warrantyInformation", omitempty := false, value := .string p.WarrantyInfo },
    { key := "shippingInformation", omitempty := false, value := .string p.ShippingInfo },
    { key := "availabilityStatus", omitempty := false, value := .string p.AvailabilityStatus },
    { key := "reviews", omitempty := false, value := .slice p.Reviews.length },
    { key := "returnPolicy", omitempty := false, value := .string p.ReturnPolicy },
    { key := "minimumOrderQuantity", omitempty := false,
      value := .uint p.MinimumOrderQuantity.val },
    { key := "meta", omitempty := false, value := .struct },
    { key := "thumbnail", omitempty := false, value := .string p.Thumbnail },
    { key := "images", omitempty := false, value := .slice p.Images.length },
    { key := "isDeleted", omitempty := true, value := .bool p.IsDeleted },
    { key := "deletedOn", omitempty := true, value := .struct } ]

/-- The keys of the JSON object that `encoding/json` writes for a `Product`: a field
is left out exactly when it is tagged `omitempty` and its value is empty. -/
def jsonKeys (p : Product) : List String :=
  ((p.jsonFields.filter fun f => !(f.omitempty && isEmptyValue f.value)).map fun f => f.key)

/-- The keys of the JSON body of a request, `none` when the request has no body. -/
def Request.bodyKeys (rq : Request) : Option (List String) :=
  rq.Body.map jsonKeys

/-! ## The data sources (`provider/common.go`, `product_data_source.go`,
`products_data_source.go`) -/

/-- The Go conversion `int64(u)` of a `uint`. -/
def int64OfUint (u : Uint) : Int :=
  wrapInt (u.val : Int)

/-- The Go conversion `int64(u)` of a `uint8`. -/
def int64OfUint8 (u : Uint8) : Int :=
  (u.val : Int)

/-- Go struct `ReviewModel`, each attribute holding a known value. -/
structure ReviewModel where
  Rating : Int
  Comment : String
  Date : String
  ReviewerName : String
  ReviewerEmail : String
deriving DecidableEq, Repr

/-- Go struct `DimensionModel`. -/
structure DimensionModel where
  Width : Float64
  Height : Float64
  Depth : Float64
deriving DecidableEq, Repr

/-- Go struct `ProductModel`, which has the attributes of `ProductDataSourceModel`
as well; lists and objects are kept as their elements. -/
structure ProductModel where
  Id : Int
  Title : String
  Description : String
  Category : String
  Price : Float64
  DiscountPercentage : Float64
  Rating : Float64
  Stock : Int
  Tags : List String
  Brand : String
  Sku : String
  Weight : Float64
  Dimensions : DimensionModel
  WarrantyInfo : String
  ShippingInfo : String
  AvailabilityStatus : String
  Reviews : List ReviewModel
  ReturnPolicy : String
  MinimumOrderQuantity : Int
  Thumbnail : String
  Images : List String
deriving DecidableEq, Repr

/-- The body of the loop over the reviews, the same in both data sources;
`timeString` is Go `time.Time.String`. -/
def toReviewModel (timeString : Time → String) (review : Review) : ReviewModel :=
  { Rating := int64OfUint8 review.Rating,
    Comment := review.Comment,
    Date := timeString review.Date,
    ReviewerName := review.ReviewerName,
    ReviewerEmail := review.ReviewerEmail }

/-- The model that `ProductDataSource.Read` builds from the product it received
(`product_data_source.go`, lines 261-307). -/
def toProductDataSourceModel (timeString : Time → String) (product : Product) : ProductModel :=
  { Id := product.Id,
    Title := product.Title,
    Description := product.Description,
    Category := product.Category,
    Price := product.Price,
    DiscountPercentage := product.DiscountPercentage,
    Rating := product.Rating,
    Stock := int64OfUint product.Stock,
    Tags := product.Tags,
    Brand := product.Brand,
    Sku := product.Sku,
    Weight := product.Weight,
    Dimensions := { Width := product.Dimensions.Width, Height := product.Dimensions.Height,
                    Depth := product.Dimensions.Depth },
    WarrantyInfo := product.WarrantyInfo,
    ShippingInfo := product.ShippingInfo,
    AvailabilityStatus := product.AvailabilityStatus,
    ReturnPolicy := product.ReturnPolicy,
    MinimumOrderQuantity := int64OfUint product.MinimumOrderQuantity,
    Thumbnail := product.Thumbnail,
    Images := product.Images,
    Reviews := product.Reviews.map (toReviewModel timeString) }

/-- The entry that `ProductsDataSource.Read` builds for one product of the list
(`products_data_source.go`, lines 221-273). -/
def toProductModel (timeString : Time → String) (p : Product) : ProductModel :=
  { Id := p.Id,
    Title := p.Title,
    Description := p.Description,
    Category := p.Category,
    Price := p.Price,
    DiscountPercentage := p.Price,
    Rating := p.Rating,
    Stock := int64OfUint p.Stock,
    Brand := p.Brand,
    Sku := p.Sku,
    Weight := p.Weight,
    WarrantyInfo := p.WarrantyInfo,
    ShippingInfo := p.ShippingInfo,
    AvailabilityStatus := p.AvailabilityStatus,
    ReturnPolicy := p.ReturnPolicy,
    MinimumOrderQuantity := int64OfUint p.MinimumOrderQuantity,
    Thumbnail := p.ShippingInfo,
    Tags := p.Tags,
    Images := p.Images,
    Reviews := p.Reviews.map (toReviewModel timeString),
    Dimensions := { Width := p.Dimensions.Width, Height := p.Dimensions.Height,
                    Depth := p.Dimensions.Depth } }

/-- How a `Read` of a data source ends: it stores a state, it reports an error
diagnostic and stores nothing, it panics, or the client call is still running when
the step budget is used up. -/
inductive ReadResult (σ : Type) where
  | state (s : σ)
  | error (summary detail : String)
  | panicked
  | running
deriving DecidableEq, Repr

/-- Go `ProductDataSource.Read` for a configuration whose `id` is `id`; reading the
configuration, converting the values and storing the state are taken to succeed. -/
def ProductDataSource.Read (timeString : Time → String) (http : Transport Product)
    (id : Int) : ReadResult ProductModel :=
  match (GetProduct http id).exec with
  | .returned product none => .state (toProductDataSourceModel timeString product)
  | .returned _ (some err) =>
    .error "DummyClient Error"
      ("Unable to get products from DummyJSON , got error: " ++ err.Error)
  | .panicked => .panicked
  | .running => .running

/-- Go `ProductsDataSource.Read`, the client call having at most `fuel` iterations of
its loop; reading the configuration, converting the values and storing the state
are taken to succeed. -/
def ProductsDataSource.Read (timeString : Time → String) (http : Transport ProductResponse)
    (fuel : Nat) : ReadResult (List ProductModel) :=
  match (GetProducts http fuel).exec with
  | .returned products none => .state (products.map (toProductModel timeString))
  | .returned _ (some err) =>
    .error "DummyClient Error"
      ("Unable to get products from DummyJSON , got error: " ++ err.Error)
  | .panicked => .panicked
  | .running => .running

/-! ## Type names (`provider.go`, lines 36-39, and the `Metadata` methods) -/

/-- Go `DummyProvider.Metadata`: the type name of the provider. -/
def DummyProvider.Metadata : String :=
  "dummy"

/-- Go `ProductDataSource.Metadata`: the type name reported for the provider type
name `providerTypeName`. -/
def ProductDataSource.Metadata (providerTypeName : String) : String :=
  providerTypeName ++ "_product"

/-- Go `ProductsDataSource.Metadata`. -/
def ProductsDataSource.Metadata (providerTypeName : String) : String :=
  providerTypeName ++ "_products"

/-- Go `ProductResource.Metadata`. -/
def ProductResource.Metadata (providerTypeName : String) : String :=
  providerTypeName ++ "_product"

/-- The constant `testAccSingleProductDataSourceConfig` of
`product_data_source_test.go`. -/
def testAccSingleProductDataSourceConfig : String :=
  "\ndata \"dummy_product\" \"test\" \x7b\n\tid = 123 \n\x7d\n"

/-- The constant `testAccAllProductsDataSourceConfig` of
`products_data_source_test.go`. -/
def testAccAllProductsDataSourceConfig : String :=
  "\ndata \"dummy_products\" \"test\" \x7b\x7d\n"

/-- The configuration text declares a data block of the given type. -/
def declaresData (config typeName : String) : Prop :=
  List.IsInfix ("data \"" ++ typeName ++ "\" ").data config.data

/-! ## The resource handlers `Update` and `Delete` (`product_resource.go`,
lines 508-547) -/

/-- Go struct `ProductResourceModel`: the attributes of `ProductModel`. -/
abbrev ProductResourceModel := ProductModel

/-- What a handler of the resource did: the exchanges it had the client perform, the
error diagnostics it added, and the state it wrote with `State.Set` (`none` when it
wrote none). -/
structure HandlerRun where
  trace : List (Exchange Product)
  diagnostics : List (String × String)
  state : Option ProductResourceModel

/-- Go `ProductResource.Update` for a plan that was read into the model: the client
`http` is at hand but not used; the plan is written to the state. -/
def ProductResource.Update (_http : Transport Product) (plan : ProductResourceModel) :
    HandlerRun :=
  { trace := [], diagnostics := [], state := some plan }

/-- Go `ProductResource.Delete` for a prior state that was read into the model: the
client `http` is at hand but not used, and nothing is written. -/
def ProductResource.Delete (_http : Transport Product) (_prior : ProductResourceModel) :
    HandlerRun :=
  { trace := [], diagnostics := [], state := none }

/-! ## Vocabulary for runs that are compared -/

/-- Two outcomes agree on everything but the `total` and `skip` of the result. -/
def Agree (o1 o2 : Outcome ProductResponse) : Prop :=
  o1.res = o2.res ∧ o1.err = o2.err ∧ o1.result.Products = o2.result.Products ∧
    o1.result.Limit = o2.result.Limit

/-- The transport `http` with the `total` and `skip` of every result replaced. -/
def withTotalSkip (total skip : Uint) (http : Transport ProductResponse) :
    Transport ProductResponse := fun n rq target =>
  { res := (http n rq target).res, err := (http n rq target).err,
    result := { Products := (http n rq target).result.Products, Total := total, Skip := skip,
                Limit := (http n rq target).result.Limit } }

/-- The fields that the JSON body of a listing response carries, `none` for a key
that the body omits. -/
structure PageBody where
  products : Option (List Product)
  total : Option Uint
  skip : Option Uint
  limit : Option Uint
deriving DecidableEq, Repr

/-- Go `json.Unmarshal` of a body into a `ProductResponse` that already holds values:
a field that the body carries is overwritten, a field that it omits is left as it
is. The `products` of a body are given as decoded items, that is, for items that
carry all their keys; how an item that omits keys is merged into the element
already held is followed by `decodeListing`. -/
def PageBody.decodeInto (b : PageBody) (target : ProductResponse) : ProductResponse :=
  { Products := b.products.getD target.Products,
    Total := b.total.getD target.Total,
    Skip := b.skip.getD target.Skip,
    Limit := b.limit.getD target.Limit }

/-- A listing server given by the status and the body of its answer to the `n`-th
request; the body of a success response is decoded into the result target, which
is the same value for every request of a call. -/
def pageTransport (answers : Nat → Nat × PageBody) : Transport ProductResponse :=
  fun n _ target =>
    { res := some { StatusCode := (answers n).1, Body := "" }, err := none,
      result :=
        if ({ StatusCode := (answers n).1, Body := "" } : Response).IsSuccess
        then (answers n).2.decodeInto target else target }

/-- A response with a status above 399 that comes with a non-nil `err` makes the
execution return the `DummyError` with the body; the `err` is dropped. -/
def StatusErrorWins {α ρ : Type} (R : Run α ρ) (zero : ρ) : Prop :=
  ∀ x ∈ R.trace, ∀ r e, x.out.res = some r → 399 < r.StatusCode → x.out.err = some e →
    R.exec = .returned zero (some (.dummy { Message := r.Body }))

/-- The execution returns an `err` of the HTTP layer only when that `err` came with
a response whose status is at most 399. -/
def ErrOnlyWithoutErrorStatus {α ρ : Type} (R : Run α ρ) : Prop :=
  ∀ v e, R.exec = .returned v (some (.other e)) →
    ∃ x ∈ R.trace, ∃ r, x.out.res = some r ∧ r.StatusCode ≤ 399 ∧ x.out.err = some e

/-- A server that answers every request with status 200, the same 30 products and
`limit = 30`, whatever the `skip`. -/
def alwaysThirty : Transport ProductResponse :=
  constTransport (some { StatusCode := 200, Body := "" }) none
    { Products := catalogOf 30, Total := 194, Skip := 0, Limit := 30 }

/-- Answers of a listing server: the first body carries the given products and
limit, every later body is an empty JSON object, which carries no field. -/
def thenEmptyBodies (products : List Product) (limit : Uint) (n : Nat) : Nat × PageBody :=
  if n = 0 then
    (200, { products := some products, total := some 194, skip := some 0, limit := some limit })
  else (200, { products := none, total := none, skip := none, limit := none })

/-- The transport `http` with every status up to 399 replaced by the success status
200; the body, the `err` and the result target are as `http` gives them. -/
def asSuccess {α : Type} (http : Transport α) : Transport α := fun n rq target =>
  { res := (http n rq target).res.map fun r =>
      if r.StatusCode ≤ 399 then { StatusCode := 200, Body := r.Body } else r,
    err := (http n rq target).err,
    result := (http n rq target).result }

/-! ## The arrays that `prodRes` shares with the items already appended

`GetProducts` declares one `prodRes` (`products.go`, line 84) as the target of every
response and appends `prodRes.Products...` (line 108), which copies the `Product`
structs but not the arrays behind their `Tags`, `Images` and `Reviews`. Go
`json.Unmarshal` decodes element `i` of a JSON array into the element `i` that the
target slice already has, so the next page is written into arrays that the items
already appended still point to. This section follows those arrays.
-/

/-- A Go slice header: the backing array (a position in the list of arrays of the
memory), the length and the capacity. -/
structure Slice where
  arr : Nat
  len : Nat
  cap : Nat
deriving DecidableEq, Repr

/-- The nil slice: no element and no capacity, so its array is never accessed. -/
def Slice.nil : Slice :=
  { arr := 0, len := 0, cap := 0 }

/-- The elements that a slice shows: the first `len` elements of its array. -/
def Slice.read {α : Type} (arrays : List (List α)) (s : Slice) : List α :=
  (arrays.getD s.arr []).take s.len

/-- The capacity given to a slice of capacity `c` that has to grow by one element
(`reflect.Value.Grow(1)`, as newer versions of `encoding/json` call it). The Go
runtime doubles a small slice; the rounding to allocation size classes, which can
only give more room, is left out. -/
def growCap (c : Nat) : Nat :=
  if c = 0 then 1 else 2 * c

/-- The capacity policy that older versions of `encoding/json` apply themselves
(`newcap := v.Cap() + v.Cap()/2`, at least 4). -/
def growByHalf (c : Nat) : Nat :=
  if c + c / 2 < 4 then 4 else c + c / 2

/-- The loop of `encoding/json` over the elements of a JSON array that is decoded
into the slice `s` (`decodeState.array`): for the element at position `i`, when
`i` has reached the capacity the slice is moved to a new array with the elements
it shows and zero values behind them; when `i` has reached the length the length
becomes `i + 1`; then the element is decoded into the array element at position
`i`, which `upd` changes from what it held. `grow` is the capacity policy. -/
def decodeElems {α : Type} (grow : Nat → Nat) (zero : α) :
    List (α → α) → Nat → List (List α) → Slice → List (List α) × Slice
  | [], _, arrays, s => (arrays, s)
  | upd :: rest, i, arrays, s =>
    let grown : List (List α) × Slice :=
      if s.cap ≤ i then
        (arrays ++ [s.read arrays ++ List.replicate (max (grow s.cap) (i + 1) - s.len) zero],
          { arr := arrays.length, len := s.len, cap := max (grow s.cap) (i + 1) })
      else (arrays, s)
    let s1 : Slice := if grown.2.len ≤ i then { grown.2 with len := i + 1 } else grown.2
    decodeElems grow zero rest (i + 1)
      (grown.1.modify (fun a => a.modify upd i) s1.arr) s1

/-- Decoding of a JSON array into the slice `s`: the elements are decoded in place,
then the slice is cut to the number of elements; an empty JSON array gives a new
empty slice. -/
def decodeArray {α : Type} (grow : Nat → Nat) (zero : α) (arrays : List (List α)) (s : Slice)
    (elems : List (α → α)) : List (List α) × Slice :=
  match elems with
  | [] => (arrays ++ [[]], { arr := arrays.length, len := 0, cap := 0 })
  | _ =>
    let r := decodeElems grow zero elems 0 arrays s
    (r.1, if elems.length < r.2.len then { r.2 with len := elems.length } else r.2)

/-- A key of a JSON object: left out, given as `null`, or given with a value. -/
inductive JsonKey (α : Type) where
  | absent
  | null
  | value (a : α)

/-- The value of a key changed by `f`. -/
def JsonKey.map {α β : Type} (f : α → β) : JsonKey α → JsonKey β
  | .absent => .absent
  | .null => .null
  | .value a => .value (f a)

/-- Decoding of a key that holds a JSON array into a slice field: a key that is left
out leaves the slice as it is, `null` makes it the nil slice, an array is decoded
in place. -/
def decodeKey {α : Type} (grow : Nat → Nat) (zero : α) (arrays : List (List α)) (s : Slice) :
    JsonKey (List (α → α)) → List (List α) × Slice
  | .absent => (arrays, s)
  | .null => (arrays, Slice.nil)
  | .value elems => decodeArray grow zero arrays s elems

/-- The Go zero value `Review{}`. -/
def Review.zero : Review :=
  { Rating := 0, Comment := "", Date := ⟨0⟩, ReviewerName := "", ReviewerEmail := "" }

/-- The arrays behind the slices of the products: arrays of strings (for `Tags` and
`Images`) and arrays of reviews. A new array is put at the end. -/
structure Memory where
  strings : List (List String)
  reviews : List (List Review)
deriving DecidableEq, Repr

/-- The memory before anything is decoded. -/
def Memory.empty : Memory :=
  { strings := [], reviews := [] }

/-- A `Product` struct as it lies in a slice of products: the fields that the struct
holds itself (`fields`, of which `Tags`, `Images` and `Reviews` are not used) and
the headers of its three slices. Copying the struct copies the headers, not the
arrays. -/
structure ProductCell where
  fields : Product
  tags : Slice
  images : Slice
  reviews : Slice
deriving DecidableEq, Repr

/-- The zero value `Product{}` as a struct in memory. -/
def ProductCell.zero : ProductCell :=
  { fields := Product.zero, tags := Slice.nil, images := Slice.nil, reviews := Slice.nil }

/-- The product that a struct shows in a memory. -/
def ProductCell.read (m : Memory) (c : ProductCell) : Product :=
  { c.fields with
    Tags := c.tags.read m.strings,
    Images := c.images.read m.strings,
    Reviews := c.reviews.read m.reviews }

/-- The JSON object of one product in a body: `fields` is what the keys other than
`tags`, `images` and `reviews` do to the fields of the struct they are decoded
into (a key that is present overwrites its field, the other fields stay); the
three array keys are given with their elements, a review as what its keys do to
the `Review` it is decoded into. -/
structure ItemBody where
  fields : Product → Product
  tags : JsonKey (List String)
  images : JsonKey (List String)
  reviews : JsonKey (List (Review → Review))

/-- Decoding of the JSON object of a product into the struct `c`, in place. -/
def decodeItem (grow : Nat → Nat) (m : Memory) (c : ProductCell) (b : ItemBody) :
    Memory × ProductCell :=
  let t := decodeKey grow "" m.strings c.tags (b.tags.map (List.map fun s _ => s))
  let i := decodeKey grow "" t.1 c.images (b.images.map (List.map fun s _ => s))
  let r := decodeKey grow Review.zero m.reviews c.reviews b.reviews
  ({ strings := i.1, reviews := r.1 },
    { fields := b.fields c.fields, tags := t.2, images := i.2, reviews := r.2 })

/-- The JSON body of a listing response. -/
structure ListingBody where
  products : JsonKey (List ItemBody)
  total : Option Uint
  skip : Option Uint
  limit : Option Uint

/-- The variable `prodRes` in memory: the array of `prodRes.Products` up to its
capacity (`backing`), the length of the slice, and the three counters. -/
structure ListingCell where
  backing : List ProductCell
  len : Nat
  Total : Uint
  Skip : Uint
  Limit : Uint
deriving DecidableEq, Repr

/-- The zero value of `prodRes` (`var prodRes ProductResponse`). -/
def ListingCell.zero : ListingCell :=
  { backing := [], len := 0, Total := 0, Skip := 0, Limit := 0 }

/-- The structs that `prodRes.Products` shows, which `append` copies. -/
def ListingCell.items (t : ListingCell) : List ProductCell :=
  t.backing.take t.len

/-- The loop of `encoding/json` over the products of a body, decoded into the slice
`prodRes.Products`: the product at position `i` is decoded into the struct that
the array already holds at position `i`, a zero struct when the array had to
grow. No other slice points into this array, so growing it is adding room. -/
def decodeItems (grow : Nat → Nat) :
    List ItemBody → Nat → Memory → List ProductCell → Nat → Memory × List ProductCell × Nat
  | [], _, m, backing, len => (m, backing, len)
  | b :: rest, i, m, backing, len =>
    let grown : List ProductCell :=
      if backing.length ≤ i then
        backing.take len ++
          List.replicate (max (grow backing.length) (i + 1) - len) ProductCell.zero
      else backing
    let d := decodeItem grow m (grown.getD i ProductCell.zero) b
    decodeItems grow rest (i + 1) d.1 (grown.set i d.2) (if len ≤ i then i + 1 else len)

/-- Go `json.Unmarshal` of a listing body into `prodRes`: a key that the body leaves
out leaves its field as it is; the products are decoded in place and the slice is
cut to their number; `null` and the empty array give a slice without elements. -/
def decodeListing (grow : Nat → Nat) (m : Memory) (t : ListingCell) (b : ListingBody) :
    Memory × ListingCell :=
  let p : Memory × List ProductCell × Nat :=
    match b.products with
    | .absent => (m, t.backing, t.len)
    | .null => (m, [], 0)
    | .value [] => (m, [], 0)
    | .value (x :: xs) =>
      let d := decodeItems grow (x :: xs) 0 m t.backing t.len
      (d.1, d.2.1, if xs.length + 1 < d.2.2 then xs.length + 1 else d.2.2)
  (p.1, { backing := p.2.1, len := p.2.2, Total := b.total.getD t.Total,
          Skip := b.skip.getD t.Skip, Limit := b.limit.getD t.Limit })

/-- The products that a body carries: what a zero `ProductResponse` shows after the
body is decoded into it. -/
def ListingBody.items (grow : Nat → Nat) (b : ListingBody) : List Product :=
  (decodeListing grow Memory.empty ListingCell.zero b).2.items.map
    (ProductCell.read (decodeListing grow Memory.empty ListingCell.zero b).1)

/-- A response with a JSON Content-Type that the network delivers without error: the
status, the body as text, and the body as a JSON object. -/
structure ListingAnswer where
  status : Nat
  text : String
  body : ListingBody

/-- What the HTTP layer does to `prodRes` on an answer: the body is decoded into it
for a success status other than 204, and nothing is done otherwise. -/
def ListingAnswer.store (grow : Nat → Nat) (a : ListingAnswer) (m : Memory) (t : ListingCell) :
    Memory × ListingCell :=
  if ({ StatusCode := a.status, Body := a.text } : Response).IsSuccess = true ∧ a.status ≠ 204 then
    decodeListing grow m t a.body
  else (m, t)

/-- The loop `for limit == 30` of `GetProducts` with `prodRes` and `products` in
memory, run for at most `fuel` iterations against a server given by its answers;
`n` is the number of requests issued so far. It yields the requests issued and
how the call ends; the items returned are read from the memory as it is when the
call returns. -/
def GetProductsInPlaceLoop (grow : Nat → Nat) (answers : Nat → Request → ListingAnswer) :
    Nat → Nat → Int → Int → Memory → ListingCell → List ProductCell →
      List Request × Exec (List Product)
  | 0, _, _, limit, m, _, products =>
    if limit = 30 then ([], .running)
    else ([], .returned (products.map (ProductCell.read m)) none)
  | fuel + 1, n, skip, limit, m, prodRes, products =>
    if limit = 30 then
      let a := answers n (pageRequest limit skip)
      if ({ StatusCode := a.status, Body := a.text } : Response).IsError then
        ([pageRequest limit skip], .returned [] (some (.dummy { Message := a.text })))
      else
        let d := a.store grow m prodRes
        let r := GetProductsInPlaceLoop grow answers fuel (n + 1)
          (wrapInt (skip + intOfUint d.2.Limit)) (intOfUint d.2.Limit) d.1 d.2
          (products ++ d.2.items)
        (pageRequest limit skip :: r.1, r.2)
    else ([], .returned (products.map (ProductCell.read m)) none)

/-- Go `DummyClient.GetProducts` with `prodRes` and `products` in memory, with at most
`fuel` iterations of its loop. -/
def GetProductsInPlace (grow : Nat → Nat) (answers : Nat → Request → ListingAnswer)
    (fuel : Nat) : List Request × Exec (List Product) :=
  let a := answers 0 firstRequest
  if ({ StatusCode := a.status, Body := a.text } : Response).IsError then
    ([firstRequest], .returned [] (some (.dummy { Message := a.text })))
  else
    let d := a.store grow Memory.empty ListingCell.zero
    let r := GetProductsInPlaceLoop grow answers fuel 1 0 30 d.1 d.2 []
    (firstRequest :: r.1, r.2)

/-- The product `i + 1` of a tagged catalog: the identifier `i + 1`, the one tag
`tag<i + 1>`, and all other fields zero. -/
def taggedProduct (i : Nat) : Product :=
  { Product.zero with Id := (i : Int) + 1, Tags := ["tag" ++ toString (i + 1)] }

/-- A catalog of `n` tagged products. -/
def taggedCatalog (n : Nat) : List Product :=
  (List.range n).map taggedProduct

/-- The JSON object of the product `i + 1` of a tagged catalog: the keys `id` and
`tags`. -/
def taggedItem (i : Nat) : ItemBody :=
  { fields := fun p => { p with Id := (i : Int) + 1 },
    tags := .value ["tag" ++ toString (i + 1)], images := .absent, reviews := .absent }

/-- A server of the tagged catalog of `n` products in pages of 30: every request is
answered with status 200 and the page that starts at the requested `skip` (at the
start for the parameterless request), with `limit` the number of its items. -/
def taggedServer (n : Nat) : Nat → Request → ListingAnswer := fun _ rq =>
  { status := 200, text := "",
    body := { products := .value ((((List.range n).drop (skipOf rq)).take 30).map taggedItem),
              total := some (Fin.ofNat n), skip := some (Fin.ofNat (skipOf rq)),
              limit := some (Fin.ofNat (((List.range n).drop (skipOf rq)).take 30).length) } }

/-! ## Sample data -/

/-- A product in the shape of the record with id 123 of the live catalog: price
549.99, discount percentage 9.5, one review. -/
def sampleProduct : Product :=
  { Product.zero with
    Id := 123,
    Title := "iPhone 13 Pro",
    Sku := "YGQKHPGK",
    Price := { bits := 4648048979020265554 },
    DiscountPercentage := { bits := 4621537642612260864 },
    ShippingInfo := "Ships in 1 month",
    Thumbnail := "https://cdn.dummyjson.com/products/images/smartphones/thumbnail.png",
    Stock := 56,
    Reviews := [{ Rating := 5, Comment := "Great value for money!", Date := { nanos := 0 },
                  ReviewerName := "Aria Roberts",
                  ReviewerEmail := "aria.roberts@x.dummyjson.com" }] }

/-- A rendering of time stamps used in examples, in place of Go `time.Time.String`. -/
def sampleTimeString (t : Time) : String :=
  toString t.nanos

/-- A decoder used in examples, in place of `json.Unmarshal` into a `Product`: the
JSON object with the one key `id` and the value 195 sets the identifier to 195,
and any other body is reported as an error. -/
def sampleDecode (_kind : ContentKind) (body : String) (target : Product) :
    Product × Option TransportError :=
  if body = "\x7b\"id\":195\x7d" then ({ target with Id := 195 }, none)
  else (target, some { text := "invalid character" })

/-! ## Decimal rendering -/

theorem digitChar_spec (d : Nat) (h : d < 10) :
    (Nat.digitChar d).isDigit = true ∧ (Nat.digitChar d).toNat - 48 = d := by
  interval_cases d <;> decide

theorem digitsValue_append (xs : List Char) (c : Char) :
    digitsValue (xs ++ [c]) = 10 * digitsValue xs + (c.toNat - 48) := by
  simp [digitsValue, List.foldl_append]

theorem toDigitsCore_append (f : Nat) : ∀ (n : Nat) (ds : List Char),
    Nat.toDigitsCore 10 f n ds = Nat.toDigitsCore 10 f n [] ++ ds := by
  induction f with
  | zero => intro n ds; simp [Nat.toDigitsCore]
  | succ f ih =>
    intro n ds
    simp only [Nat.toDigitsCore]
    split
    · simp
    · rw [ih (n / 10) (Nat.digitChar (n % 10) :: ds), ih (n / 10) [Nat.digitChar (n % 10)]]
      simp

theorem toDigitsCore_spec (f : Nat) : ∀ n : Nat, n < f →
    Nat.toDigitsCore 10 f n [] ≠ [] ∧
    (Nat.toDigitsCore 10 f n []).all Char.isDigit = true ∧
    digitsValue (Nat.toDigitsCore 10 f n []) = n := by
  induction f with
  | zero => intro n h; omega
  | succ f ih =>
    intro n h
    have hd := digitChar_spec (n % 10) (Nat.mod_lt _ (by decide))
    simp only [Nat.toDigitsCore]
    split
    · rename_i h0
      refine ⟨by simp, by simp [hd.1], ?_⟩
      simp only [digitsValue, List.foldl_cons, List.foldl_nil, hd.2]
      omega
    · rename_i h0
      rw [toDigitsCore_append]
      have hlt : n / 10 < f := by omega
      obtain ⟨h1, h2, h3⟩ := ih (n / 10) hlt
      refine ⟨by simp, ?_, ?_⟩
      · simp only [List.all_append, h2, List.all_cons, hd.1, List.all_nil, Bool.and_self]
      · rw [digitsValue_append, h3, hd.2]
        omega

/-- Reading back the decimal rendering of a natural number gives the number. -/
theorem Atoi_Itoa (n : Nat) : Atoi (Itoa (n : Int)) = some n := by
  have h := toDigitsCore_spec (n + 1) n (Nat.lt_succ_self n)
  have hdata : (Itoa (n : Int)).data = Nat.toDigitsCore 10 (n + 1) n [] := rfl
  unfold Atoi
  rw [hdata, if_pos ⟨h.1, h.2.1⟩, h.2.2]

/-! ## Go integers: facts -/

theorem wrapInt_wrapInt_add (x y : Int) : wrapInt (wrapInt x + y) = wrapInt (x + y) := by
  unfold wrapInt; omega

theorem wrapInt_of_range (x : Int) (h0 : 0 ≤ x) (h1 : x < 2 ^ 63) : wrapInt x = x := by
  unfold wrapInt; omega

theorem intOfUint_eq_thirty (u : Uint) : intOfUint u = 30 ↔ u = 30 := by
  unfold intOfUint wrapInt
  rw [Fin.ext_iff]
  have := u.isLt
  have h30 : ((30 : Uint) : Nat) = 30 := rfl
  rw [h30]
  omega

/-! ## The stub server serves its catalog -/

theorem skipOf_pageRequest (l : Int) (s : Nat) : skipOf (pageRequest l (s : Int)) = s := by
  have h : (pageRequest l (s : Int)).QueryParam.lookup "skip" = some (Itoa (s : Int)) := by
    simp [pageRequest, List.lookup]
  simp [skipOf, h, Atoi_Itoa]

theorem pageAt_length_le (catalog : List Product) (s : Nat) : (pageAt catalog s).length ≤ 30 := by
  simp [pageAt, List.length_take]

theorem pagedServer_serves (catalog : List Product) : ServesCatalog (pagedServer catalog) catalog := by
  refine ⟨fun prev => rfl, fun n s prev => ⟨rfl, ?_, ?_⟩⟩
  · simp [pagedServer, skipOf_pageRequest]
  · have h := pageAt_length_le catalog s
    simp only [pagedServer, skipOf_pageRequest, Fin.ofNat, Fin.val_mk]
    omega

/-! ## Unfolding the operations -/

theorem loop_stop (http : Transport ProductResponse) (fuel n : Nat) (skip limit : Int)
    (p : ProductResponse) (ps : List Product) (h : limit ≠ 30) :
    GetProductsLoop http fuel n skip limit p ps = { trace := [], exec := .returned ps none } := by
  cases fuel <;> simp [GetProductsLoop, h]

theorem loop_step (http : Transport ProductResponse) (fuel n : Nat) (skip : Int)
    (p : ProductResponse) (ps : List Product) :
    GetProductsLoop http (fuel + 1) n skip 30 p ps =
      Run.after { req := pageRequest 30 skip, out := http n (pageRequest 30 skip) p }
        (checked [] (http n (pageRequest 30 skip) p) fun q =>
          GetProductsLoop http fuel (n + 1) (wrapInt (skip + intOfUint q.Limit))
            (intOfUint q.Limit) q (ps ++ q.Products)) := by
  simp [GetProductsLoop]

theorem GetProducts_eq (http : Transport ProductResponse) (fuel : Nat) :
    GetProducts http fuel =
      Run.after { req := firstRequest, out := http 0 firstRequest ProductResponse.zero }
        (checked [] (http 0 firstRequest ProductResponse.zero) fun q =>
          GetProductsLoop http fuel 1 0 30 q []) := rfl

theorem single_eq (http : Transport Product) (rq : Request) :
    single http rq =
      Run.after { req := rq, out := http 0 rq Product.zero }
        (checked Product.zero (http 0 rq Product.zero) fun product =>
          { trace := [], exec := .returned product none }) := rfl

theorem checked_ok {α ρ : Type} (zero : ρ) (o : Outcome α) (k : α → Run α ρ)
    (h : o.ok = true) : checked zero o k = k o.result := by
  unfold Outcome.ok at h
  unfold checked
  split at h
  · rename_i r hr he
    simp only [hr, he]
    simp at h
    simp [h]
  · simp at h

theorem checked_not_ok {α ρ : Type} (zero : ρ) (o : Outcome α) (k : α → Run α ρ)
    (h : o.ok = false) :
    checked zero o k = { trace := [], exec := abortWith zero o } := by
  unfold Outcome.ok at h
  unfold checked abortWith
  cases hr : o.res with
  | none => simp
  | some r =>
    cases he : o.err with
    | none =>
      simp only [hr, he] at h
      simp at h
      simp [h]
    | some e =>
      by_cases hE : r.IsError = true <;> simp [hE]

/-- An outcome that stops the operation never ends it with a nil error. -/
theorem abortWith_ne_success {α ρ : Type} (zero v : ρ) (o : Outcome α) (h : o.ok = false) :
    abortWith zero o ≠ .returned v none := by
  unfold Outcome.ok at h
  unfold abortWith
  cases hr : o.res with
  | none => simp
  | some r =>
    cases he : o.err with
    | none =>
      simp only [hr, he] at h
      simp at h
      simp [h]
    | some e =>
      by_cases hE : r.IsError = true <;> simp [hE]

/-- An outcome with a response is not ok exactly when the status is an error status
or `err` is not nil. -/
theorem not_ok_iff {α : Type} (o : Outcome α) (r : Response) (hr : o.res = some r) :
    o.ok = false ↔ (r.IsError = true ∨ o.err ≠ none) := by
  unfold Outcome.ok
  cases he : o.err with
  | none => simp [hr]
  | some e => simp [hr]

/-! ## Walking a served catalog -/

theorem pageAt_append_drop (catalog : List Product) (s : Nat) :
    pageAt catalog s ++ catalog.drop (s + 30) = catalog.drop s := by
  unfold pageAt
  rw [← List.drop_drop]
  exact List.take_append_drop 30 _

theorem pageAt_length (catalog : List Product) (s : Nat) :
    (pageAt catalog s).length = min 30 (catalog.length - s) := by
  simp [pageAt, List.length_take]

/-- The paginated requests for the pages `k .. k + m - 1` of a catalog. -/
theorem range_succ_map (f : Nat → Request) (k m : Nat) :
    (List.range' k (m + 1)).map f = f k :: (List.range' (k + 1) m).map f := by
  simp [List.range'_succ]

/-- On a served catalog the loop, started at `skip = 30 * k` with enough fuel, ends
with the accumulated items followed by the rest of the catalog (each item as it
was when appended), after the requests for
`skip = 30 * k, 30 * (k + 1), ..., 30 * (N / 30)`. -/
theorem loop_serves (http : Transport ProductResponse) (catalog : List Product)
    (hs : ServesCatalog http catalog) (hN : catalog.length < 2 ^ 63) :
    ∀ (fuel k n : Nat) (p : ProductResponse) (ps : List Product),
      30 * k ≤ catalog.length → catalog.length / 30 - k < fuel →
      (GetProductsLoop http fuel n ((30 * k : Nat) : Int) 30 p ps).exec
          = .returned (ps ++ catalog.drop (30 * k)) none ∧
      (GetProductsLoop http fuel n ((30 * k : Nat) : Int) 30 p ps).trace.map (fun x => x.req)
          = (List.range' k (catalog.length / 30 - k + 1)).map
              (fun j => pageRequest 30 ((30 * j : Nat) : Int)) := by
  intro fuel
  induction fuel with
  | zero => intro k n p ps _ h; omega
  | succ fuel ih =>
    intro k n p ps hk hf
    obtain ⟨hok, hprod, hlim⟩ := hs.2 n (30 * k) p
    rw [loop_step, checked_ok _ _ _ hok]
    simp only [Run.after, List.map_cons]
    have hlen := pageAt_length catalog (30 * k)
    by_cases hfull : (pageAt catalog (30 * k)).length = 30
    · have hL : (http n (pageRequest 30 ((30 * k : Nat) : Int)) p).result.Limit = 30 := by
        apply Fin.ext
        rw [hlim, hfull]
        rfl
      have hi : intOfUint (http n (pageRequest 30 ((30 * k : Nat) : Int)) p).result.Limit = 30 :=
        (intOfUint_eq_thirty _).2 hL
      have hk1 : 30 * (k + 1) ≤ catalog.length := by omega
      have hskip : wrapInt (((30 * k : Nat) : Int) + 30) = ((30 * (k + 1) : Nat) : Int) := by
        rw [wrapInt_of_range] <;> push_cast <;> omega
      rw [hi, hskip, hprod]
      obtain ⟨h1, h2⟩ := ih (k + 1) (n + 1)
        (http n (pageRequest 30 ((30 * k : Nat) : Int)) p).result
        (ps ++ pageAt catalog (30 * k)) hk1 (by omega)
      refine ⟨?_, ?_⟩
      · rw [h1, List.append_assoc, show 30 * (k + 1) = 30 * k + 30 by ring, pageAt_append_drop]
      · rw [h2]
        conv_rhs =>
          rw [show catalog.length / 30 - k + 1 = (catalog.length / 30 - (k + 1) + 1) + 1 by omega,
            range_succ_map]
    · have hi : intOfUint (http n (pageRequest 30 ((30 * k : Nat) : Int)) p).result.Limit ≠ 30 := by
        intro h
        have h2 := (intOfUint_eq_thirty _).1 h
        rw [h2] at hlim
        exact hfull hlim.symm
      rw [loop_stop _ _ _ _ _ _ _ hi, hprod]
      have hshort : catalog.length - 30 * k < 30 := by omega
      have hpage : pageAt catalog (30 * k) = catalog.drop (30 * k) := by
        unfold pageAt
        exact List.take_of_length_le (by rw [List.length_drop]; omega)
      refine ⟨by rw [hpage], ?_⟩
      rw [show catalog.length / 30 - k + 1 = 0 + 1 by omega, range_succ_map]
      simp

/-- On a served catalog `GetProducts`, given more than `N / 30` loop iterations,
ends without error with the items of the catalog (each as it was when appended)
after the parameterless request and the paginated requests for
`skip = 0, 30, ..., 30 * (N / 30)`. -/
theorem GetProducts_serves (http : Transport ProductResponse) (catalog : List Product)
    (hs : ServesCatalog http catalog) (hN : catalog.length < 2 ^ 63)
    (fuel : Nat) (hf : catalog.length / 30 < fuel) :
    (GetProducts http fuel).exec = .returned catalog none ∧
    (GetProducts http fuel).trace.map (fun x => x.req) =
      firstRequest :: (List.range (catalog.length / 30 + 1)).map
        (fun j => pageRequest 30 ((30 * j : Nat) : Int)) := by
  have h := loop_serves http catalog hs hN fuel 0 1
    (http 0 firstRequest ProductResponse.zero).result [] (by omega) (by omega)
  unfold GetProducts
  simp only [checked_ok _ _ _ (hs.1 ProductResponse.zero), Run.after, List.map_cons]
  simp only [Nat.mul_zero, Nat.cast_zero, List.drop_zero, List.nil_append, Nat.sub_zero] at h
  refine ⟨h.1, ?_⟩
  rw [h.2, List.range_eq_range']

theorem catalogOf_length (n : Nat) : (catalogOf n).length = n := by
  simp [catalogOf]

theorem catalogOf_head (n : Nat) :
    (catalogOf (n + 1)).head?.map (fun p => p.Id) = some 1 := by
  simp [catalogOf, List.range_succ_eq_map, mkProduct]

/-! ## Pagination: the claims -/

set_option maxRecDepth 100000 in
/-- C1, on the catalog of 31 products `id: i, tags: [tag<i>]` served in pages of 30:
the two paginated bodies carry the catalog, product 1 with `tag1`, and the call
issues its three requests and returns 31 items with the identifiers `1 .. 31`, but
product 1 comes back with the tag of product 31. The last page was decoded into
the array that the first item, already appended, points to. The result is the same
under the other capacity policy, and the requests are those of the value-level
`GetProducts` on the same catalog. -/
theorem GetProducts_overwrites_appended :
    ((List.range 2).map fun k =>
        (taggedServer 31 (k + 1) (pageRequest 30 ((30 * k : Nat) : Int))).body.items
          growCap).flatten = taggedCatalog 31 ∧
    (taggedCatalog 31).head?.map (fun p => (p.Id, p.Tags)) = some (1, ["tag1"]) ∧
    (GetProductsInPlace growCap (taggedServer 31) 3).1 =
      [firstRequest, pageRequest 30 0, pageRequest 30 30] ∧
    (GetProductsInPlace growCap (taggedServer 31) 3).2 =
      .returned ((taggedCatalog 31).set 0 { taggedProduct 0 with Tags := ["tag31"] }) none ∧
    ((taggedCatalog 31).set 0 { taggedProduct 0 with Tags := ["tag31"] }).head?.map
      (fun p => (p.Id, p.Tags)) = some (1, ["tag31"]) ∧
    (GetProductsInPlace growByHalf (taggedServer 31) 3).2 =
      .returned ((taggedCatalog 31).set 0 { taggedProduct 0 with Tags := ["tag31"] }) none ∧
    (GetProducts (pagedServer (taggedCatalog 31)) 3).trace.map (fun x => x.req) =
      [firstRequest, pageRequest 30 0, pageRequest 30 30] := by
  refine ⟨by decide, by decide, by decide, by decide, by decide, by decide, by decide⟩

/-- C2, as stated, fails: on a catalog of 74 products served in pages of 30 the call
returns the 74 items after 4 requests (answered with pages of 30, 30, 30 and 14
items), not after the 3 requests that rounding `74 / 30` up gives. -/
theorem GetProducts_request_count_counterexample :
    (GetProducts (pagedServer (catalogOf 74)) 5).exec = .returned (catalogOf 74) none ∧
    (GetProducts (pagedServer (catalogOf 74)) 5).trace.map
      (fun x => x.out.result.Products.length) = [30, 30, 30, 14] ∧
    (GetProducts (pagedServer (catalogOf 74)) 5).trace.length = 4 ∧
    ¬ ((GetProducts (pagedServer (catalogOf 74)) 5).trace.length = (74 + 29) / 30) := by
  decide

/-- C2, amended: on a catalog of `N` items served in fixed pages of 30, a call of
`GetProducts` that is given more than `N / 30` loop iterations ends without error
with `N` items after exactly `N / 30 + 2` requests: the parameterless one, then the
paginated ones for `skip = 0, 30, ..., 30 * (N / 30)`. -/
theorem GetProducts_request_count (http : Transport ProductResponse)
    (catalog : List Product) (hs : ServesCatalog http catalog)
    (hN : catalog.length < 2 ^ 63) (fuel : Nat) (hf : catalog.length / 30 < fuel) :
    (∃ ps, (GetProducts http fuel).exec = .returned ps none ∧ ps.length = catalog.length) ∧
    (GetProducts http fuel).trace.length = catalog.length / 30 + 2 ∧
    (GetProducts http fuel).trace.map (fun x => x.req) =
      firstRequest :: (List.range (catalog.length / 30 + 1)).map
        (fun j => pageRequest 30 ((30 * j : Nat) : Int)) := by
  obtain ⟨h1, h2⟩ := GetProducts_serves http catalog hs hN fuel hf
  refine ⟨⟨catalog, h1, rfl⟩, ?_, h2⟩
  have h3 := congrArg List.length h2
  simpa using h3

/-- C2, amended, at the catalog of 74 products: paginated pages of 30, 30 and 14
items cost 4 requests. -/
theorem GetProducts_request_count_witness :
    ServesCatalog (pagedServer (catalogOf 74)) (catalogOf 74) ∧
    (catalogOf 74).length < 2 ^ 63 ∧ (catalogOf 74).length / 30 < 5 ∧
    (∃ ps, (GetProducts (pagedServer (catalogOf 74)) 5).exec = .returned ps none ∧
      ps.length = (catalogOf 74).length) ∧
    (GetProducts (pagedServer (catalogOf 74)) 5).trace.length = (catalogOf 74).length / 30 + 2 ∧
    (GetProducts (pagedServer (catalogOf 74)) 5).trace.map (fun x => x.req) =
      firstRequest :: (List.range ((catalogOf 74).length / 30 + 1)).map
        (fun j => pageRequest 30 ((30 * j : Nat) : Int)) :=
  ⟨pagedServer_serves _, by decide, by decide,
    GetProducts_request_count (pagedServer (catalogOf 74)) (catalogOf 74)
      (pagedServer_serves _) (by decide) 5 (by decide)⟩

/-- C3, as stated, fails: when every response, the first included, reports
`limit = 5` with 5 items, `GetProducts` issues two requests, not one. -/
theorem GetProducts_short_first_page_counterexample :
    (GetProducts (pagedServer (catalogOf 5)) 3).trace.map
      (fun x => (x.out.result.Limit.val, x.out.result.Products.length)) = [(5, 5), (5, 5)] ∧
    (GetProducts (pagedServer (catalogOf 5)) 3).trace.map (fun x => x.req) =
      [firstRequest, pageRequest 30 0] ∧
    ¬ ((GetProducts (pagedServer (catalogOf 5)) 3).trace.length = 1) := by
  decide

/-- C3, amended: when the parameterless request is answered without error and the
first paginated response reports `limit < 30`, `GetProducts` issues exactly two
requests, the parameterless one and `limit=30&skip=0`, and returns exactly the
items of the paginated response. -/
theorem GetProducts_short_first_page (http : Transport ProductResponse) (fuel : Nat)
    (hf : 0 < fuel)
    (h0 : (http 0 firstRequest ProductResponse.zero).ok = true)
    (h1 : (http 1 (pageRequest 30 0)
      (http 0 firstRequest ProductResponse.zero).result).ok = true)
    (hlt : (http 1 (pageRequest 30 0)
      (http 0 firstRequest ProductResponse.zero).result).result.Limit.val < 30) :
    (GetProducts http fuel).trace =
      [{ req := firstRequest, out := http 0 firstRequest ProductResponse.zero },
       { req := pageRequest 30 0,
         out := http 1 (pageRequest 30 0) (http 0 firstRequest ProductResponse.zero).result }] ∧
    (GetProducts http fuel).exec =
      .returned (http 1 (pageRequest 30 0)
        (http 0 firstRequest ProductResponse.zero).result).result.Products none := by
  obtain ⟨f, rfl⟩ : ∃ f, fuel = f + 1 := ⟨fuel - 1, by omega⟩
  have hi : intOfUint (http 1 (pageRequest 30 0)
      (http 0 firstRequest ProductResponse.zero).result).result.Limit ≠ 30 := by
    intro h
    rw [(intOfUint_eq_thirty _).1 h] at hlt
    exact absurd hlt (by decide)
  unfold GetProducts
  simp only [checked_ok _ _ _ h0, loop_step, checked_ok _ _ _ h1, Run.after,
    loop_stop _ _ _ _ _ _ _ hi, List.nil_append, and_self]

/-- C3, amended, at a catalog of 5 products. -/
theorem GetProducts_short_first_page_witness :
    (GetProducts (pagedServer (catalogOf 5)) 3).trace.length = 2 ∧
    (GetProducts (pagedServer (catalogOf 5)) 3).exec = .returned (catalogOf 5) none :=
  have h := GetProducts_short_first_page (pagedServer (catalogOf 5)) 3 (by decide)
    (by decide) (by decide) (by decide)
  ⟨by rw [h.1]; rfl, by rw [h.2]; decide⟩

/-! ## The shape of an execution -/

/-- Every execution of the loop either performed only exchanges that are ok (and
then returned the accumulated items followed by the pages received, or used up its
fuel), or it stopped at its last exchange, the only one that is not ok. -/
theorem loop_shape (http : Transport ProductResponse) :
    ∀ (fuel n : Nat) (skip limit : Int) (p : ProductResponse) (ps : List Product),
      ((∀ x ∈ (GetProductsLoop http fuel n skip limit p ps).trace, x.out.ok = true) ∧
        ((GetProductsLoop http fuel n skip limit p ps).exec =
            .returned (ps ++ pagesOf (GetProductsLoop http fuel n skip limit p ps).trace) none ∨
          (GetProductsLoop http fuel n skip limit p ps).exec = .running)) ∨
      (∃ T0 x, (GetProductsLoop http fuel n skip limit p ps).trace = T0 ++ [x] ∧
        (∀ y ∈ T0, y.out.ok = true) ∧ x.out.ok = false ∧
        (GetProductsLoop http fuel n skip limit p ps).exec = abortWith [] x.out) := by
  intro fuel
  induction fuel with
  | zero =>
    intro n skip limit p ps
    left
    by_cases h : limit = 30 <;> simp [GetProductsLoop, h, pagesOf]
  | succ fuel ih =>
    intro n skip limit p ps
    by_cases h : limit = 30
    · subst h
      rw [loop_step]
      by_cases hok : (http n (pageRequest 30 skip) p).ok = true
      · rw [checked_ok _ _ _ hok]
        rcases ih (n + 1) (wrapInt (skip + intOfUint (http n (pageRequest 30 skip) p).result.Limit))
          (intOfUint (http n (pageRequest 30 skip) p).result.Limit)
          (http n (pageRequest 30 skip) p).result
          (ps ++ (http n (pageRequest 30 skip) p).result.Products) with ⟨hall, hex⟩ | ⟨T0, x, hT, hall, hx, hex⟩
        · left
          refine ⟨?_, ?_⟩
          · intro x hx
            simp only [Run.after, List.mem_cons] at hx
            rcases hx with rfl | hx
            · exact hok
            · exact hall x hx
          · rcases hex with hex | hex
            · left
              simp only [Run.after, hex, pagesOf, List.map_cons, List.flatten_cons,
                List.append_assoc]
            · right
              simp only [Run.after, hex]
        · right
          refine ⟨{ req := pageRequest 30 skip, out := http n (pageRequest 30 skip) p } :: T0,
            x, ?_, ?_, hx, ?_⟩
          · simp only [Run.after, hT, List.cons_append]
          · intro y hy
            simp only [List.mem_cons] at hy
            rcases hy with rfl | hy
            · exact hok
            · exact hall y hy
          · simp only [Run.after, hex]
      · have hok2 : (http n (pageRequest 30 skip) p).ok = false := by simpa using hok
        rw [checked_not_ok _ _ _ hok2]
        right
        exact ⟨[], { req := pageRequest 30 skip, out := http n (pageRequest 30 skip) p },
          by simp [Run.after], by simp, hok2, by simp [Run.after]⟩
    · left
      rw [loop_stop _ _ _ _ _ _ _ h]
      simp [pagesOf]

/-- The shape of an execution of `GetProducts`; the pages returned are those of the
exchanges after the first. -/
theorem GetProducts_shape (http : Transport ProductResponse) (fuel : Nat) :
    ((∀ x ∈ (GetProducts http fuel).trace, x.out.ok = true) ∧
      ((GetProducts http fuel).exec =
          .returned (pagesOf (GetProducts http fuel).trace.tail) none ∨
        (GetProducts http fuel).exec = .running)) ∨
    (∃ T0 x, (GetProducts http fuel).trace = T0 ++ [x] ∧
      (∀ y ∈ T0, y.out.ok = true) ∧ x.out.ok = false ∧
      (GetProducts http fuel).exec = abortWith [] x.out) := by
  rw [GetProducts_eq]
  by_cases hok : (http 0 firstRequest ProductResponse.zero).ok = true
  · simp only [checked_ok _ _ _ hok]
    rcases loop_shape http fuel 1 0 30 (http 0 firstRequest ProductResponse.zero).result []
      with ⟨hall, hex⟩ | ⟨T0, x, hT, hall, hx, hex⟩
    · left
      refine ⟨?_, ?_⟩
      · intro x hx
        simp only [Run.after, List.mem_cons] at hx
        rcases hx with rfl | hx
        · exact hok
        · exact hall x hx
      · simpa [Run.after] using hex
    · right
      refine ⟨{ req := firstRequest, out := http 0 firstRequest ProductResponse.zero } :: T0,
        x, ?_, ?_, hx, ?_⟩
      · simp only [Run.after, hT, List.cons_append]
      · intro y hy
        simp only [List.mem_cons] at hy
        rcases hy with rfl | hy
        · exact hok
        · exact hall y hy
      · simp only [Run.after, hex]
  · have hok2 : (http 0 firstRequest ProductResponse.zero).ok = false := by simpa using hok
    rw [checked_not_ok _ _ _ hok2]
    right
    exact ⟨[], { req := firstRequest, out := http 0 firstRequest ProductResponse.zero },
      by simp [Run.after], by simp, hok2, by simp [Run.after]⟩

/-- The shape of an execution of a single-request operation. -/
theorem single_shape (http : Transport Product) (rq : Request) :
    (single http rq).trace = [{ req := rq, out := http 0 rq Product.zero }] ∧
    (((http 0 rq Product.zero).ok = true ∧
        (single http rq).exec = .returned (http 0 rq Product.zero).result none) ∨
      ((http 0 rq Product.zero).ok = false ∧
        (single http rq).exec = abortWith Product.zero (http 0 rq Product.zero))) := by
  rw [single_eq]
  by_cases hok : (http 0 rq Product.zero).ok = true
  · simp [checked_ok _ _ _ hok, Run.after, hok]
  · have hok2 : (http 0 rq Product.zero).ok = false := by simpa using hok
    simp [checked_not_ok _ _ _ hok2, Run.after, hok2]

/-- In a trace whose exchanges are all ok except the last, an exchange that is not
ok is the last one. -/
theorem last_of_not_ok {α : Type} (T T0 : List (Exchange α)) (x y : Exchange α) (i : Nat)
    (hT : T = T0 ++ [y]) (hall : ∀ z ∈ T0, z.out.ok = true)
    (hi : T[i]? = some x) (hx : x.out.ok = false) : T.length = i + 1 ∧ x = y := by
  subst hT
  by_cases hlt : i < T0.length
  · rw [List.getElem?_append_left hlt] at hi
    have := hall x (List.getElem?_mem hi)
    rw [hx] at this
    exact absurd this (by simp)
  · have hle : i ≤ T0.length := by
      by_contra hc
      rw [List.getElem?_eq_none (by simp; omega)] at hi
      simp at hi
    have heq : i = T0.length := by omega
    subst heq
    rw [List.getElem?_concat_length] at hi
    exact ⟨by simp, (Option.some.inj hi).symm⟩

/-! ## The requests of the loop -/

/-- The part of an operation that follows an exchange performs further exchanges
only if that exchange is ok. -/
theorem checked_trace_ne_nil {α ρ : Type} (zero : ρ) (o : Outcome α) (k : α → Run α ρ)
    (i : Nat) (x : Exchange α) (h : (checked zero o k).trace[i]? = some x) :
    o.ok = true := by
  by_contra hc
  have hok2 : o.ok = false := by simpa using hc
  rw [checked_not_ok _ _ _ hok2] at h
  simp at h

/-- After an exchange of the loop that is ok, and with fuel left, a further request
is issued exactly when the returned `limit` is 30. -/
theorem loop_continue_iff (http : Transport ProductResponse) :
    ∀ (fuel n : Nat) (skip limit : Int) (p : ProductResponse) (ps : List Product)
      (i : Nat) (x : Exchange ProductResponse),
      i + 2 ≤ fuel →
      (GetProductsLoop http fuel n skip limit p ps).trace[i]? = some x →
      x.out.ok = true →
      (((GetProductsLoop http fuel n skip limit p ps).trace[i + 1]?).isSome = true ↔
        x.out.result.Limit = 30) := by
  intro fuel
  induction fuel with
  | zero => intro n skip limit p ps i x h; omega
  | succ fuel ih =>
    intro n skip limit p ps i x hf hx hok
    by_cases h : limit = 30
    · subst h
      rw [loop_step] at hx ⊢
      simp only [Run.after] at hx ⊢
      cases i with
      | zero =>
        rw [List.getElem?_cons_zero] at hx
        have hx2 := Option.some.inj hx
        subst hx2
        simp only at hok ⊢
        rw [checked_ok _ _ _ hok, List.getElem?_cons_succ]
        obtain ⟨f, rfl⟩ : ∃ f, fuel = f + 1 := ⟨fuel - 1, by omega⟩
        by_cases hl : intOfUint (http n (pageRequest 30 skip) p).result.Limit = 30
        · rw [hl, loop_step]
          simp only [Run.after, List.getElem?_cons_zero, Option.isSome_some, true_iff]
          exact (intOfUint_eq_thirty _).1 hl
        · rw [loop_stop _ _ _ _ _ _ _ hl]
          simp only [List.getElem?_nil, Option.isSome_none, Bool.false_eq_true, false_iff]
          exact fun h2 => hl ((intOfUint_eq_thirty _).2 h2)
      | succ i =>
        rw [List.getElem?_cons_succ] at hx ⊢
        have hok0 := checked_trace_ne_nil _ _ _ _ _ hx
        rw [checked_ok _ _ _ hok0] at hx ⊢
        exact ih _ _ _ _ _ i x (by omega) hx hok
    · rw [loop_stop _ _ _ _ _ _ _ h] at hx
      simp at hx

/-- The request at position `i` of the loop, started with `skip`, asks for
`limit = 30` and `skip + 30 * i` (as a Go `int`), and the exchanges before it
returned limits that sum to `30 * i`. -/
theorem loop_request (http : Transport ProductResponse) :
    ∀ (fuel n : Nat) (skip limit : Int) (p : ProductResponse) (ps : List Product)
      (i : Nat) (x : Exchange ProductResponse),
      wrapInt skip = skip →
      (GetProductsLoop http fuel n skip limit p ps).trace[i]? = some x →
      x.req = pageRequest 30 (wrapInt (skip + ((30 * i : Nat) : Int))) ∧
      sumLimits ((GetProductsLoop http fuel n skip limit p ps).trace.take i) = 30 * i := by
  intro fuel
  induction fuel with
  | zero =>
    intro n skip limit p ps i x _ hx
    by_cases h : limit = 30 <;> simp [GetProductsLoop, h] at hx
  | succ fuel ih =>
    intro n skip limit p ps i x hs hx
    by_cases h : limit = 30
    · subst h
      rw [loop_step] at hx ⊢
      simp only [Run.after] at hx ⊢
      cases i with
      | zero =>
        rw [List.getElem?_cons_zero] at hx
        have hx2 := Option.some.inj hx
        subst hx2
        simp [sumLimits, hs]
      | succ i =>
        rw [List.getElem?_cons_succ] at hx
        have hok0 := checked_trace_ne_nil _ _ _ _ _ hx
        rw [checked_ok _ _ _ hok0] at hx ⊢
        have hl : intOfUint (http n (pageRequest 30 skip) p).result.Limit = 30 := by
          by_contra hl
          rw [loop_stop _ _ _ _ _ _ _ hl] at hx
          simp at hx
        have hL := (intOfUint_eq_thirty _).1 hl
        rw [hl] at hx ⊢
        obtain ⟨h1, h2⟩ := ih _ _ _ _ _ i x (by unfold wrapInt; omega) hx
        refine ⟨?_, ?_⟩
        · have hcast : skip + 30 + ((30 * i : Nat) : Int) = skip + ((30 * (i + 1) : Nat) : Int) := by
            push_cast
            ring
          rw [h1, wrapInt_wrapInt_add, hcast]
        · rw [List.take_succ_cons]
          simp only [sumLimits, List.map_cons, List.sum_cons] at h2 ⊢
          rw [h2, hL]
          have h30 : ((30 : Uint) : Nat) = 30 := rfl
          rw [h30]
          ring
    · rw [loop_stop _ _ _ _ _ _ _ h] at hx
      simp at hx

/-- The exchanges of `GetProducts` after the first are those of its loop. -/
theorem GetProducts_tail (http : Transport ProductResponse) (fuel i : Nat)
    (x : Exchange ProductResponse) (hx : (GetProducts http fuel).trace[i + 1]? = some x) :
    (http 0 firstRequest ProductResponse.zero).ok = true ∧
    (GetProducts http fuel).trace =
      { req := firstRequest, out := http 0 firstRequest ProductResponse.zero } ::
        (GetProductsLoop http fuel 1 0 30
          (http 0 firstRequest ProductResponse.zero).result []).trace := by
  rw [GetProducts_eq] at hx ⊢
  simp only [Run.after, List.getElem?_cons_succ] at hx ⊢
  have hok0 := checked_trace_ne_nil _ _ _ _ _ hx
  rw [checked_ok _ _ _ hok0]
  exact ⟨hok0, rfl⟩

/-- A call of the loop that returns without error received, as its last exchange, a
response whose `limit` is not 30. -/
theorem loop_last (http : Transport ProductResponse) :
    ∀ (fuel n : Nat) (skip : Int) (p : ProductResponse) (ps r : List Product),
      (GetProductsLoop http fuel n skip 30 p ps).exec = .returned r none →
      ∃ T0 x, (GetProductsLoop http fuel n skip 30 p ps).trace = T0 ++ [x] ∧
        x.out.result.Limit ≠ 30 := by
  intro fuel
  induction fuel with
  | zero => intro n skip p ps r h; simp [GetProductsLoop] at h
  | succ fuel ih =>
    intro n skip p ps r h
    rw [loop_step] at h ⊢
    by_cases hok : (http n (pageRequest 30 skip) p).ok = true
    · rw [checked_ok _ _ _ hok] at h ⊢
      simp only [Run.after] at h ⊢
      by_cases hl : intOfUint (http n (pageRequest 30 skip) p).result.Limit = 30
      · rw [hl] at h ⊢
        obtain ⟨T0, x, hT, hx⟩ := ih _ _ _ _ r h
        exact ⟨{ req := pageRequest 30 skip, out := http n (pageRequest 30 skip) p } :: T0, x,
          by rw [hT, List.cons_append], hx⟩
      · rw [loop_stop _ _ _ _ _ _ _ hl]
        exact ⟨[], { req := pageRequest 30 skip, out := http n (pageRequest 30 skip) p },
          by simp, fun h2 => hl ((intOfUint_eq_thirty _).2 h2)⟩
    · have hok2 : (http n (pageRequest 30 skip) p).ok = false := by simpa using hok
      rw [checked_not_ok _ _ _ hok2] at h
      simp only [Run.after] at h
      exact absurd h (abortWith_ne_success _ _ _ hok2)

/-- An exchange of `GetProducts` that is not ok is the last one, and the call ends
as that outcome dictates. -/
theorem GetProducts_stops (http : Transport ProductResponse) (fuel i : Nat)
    (x : Exchange ProductResponse) (hx : (GetProducts http fuel).trace[i]? = some x)
    (hnok : x.out.ok = false) :
    (GetProducts http fuel).trace.length = i + 1 ∧
    (GetProducts http fuel).exec = abortWith [] x.out := by
  rcases GetProducts_shape http fuel with ⟨hall, _⟩ | ⟨T0, y, hT, hall, _, hex⟩
  · have := hall x (List.getElem?_mem hx)
    rw [hnok] at this
    exact absurd this (by simp)
  · obtain ⟨hlen, hxy⟩ := last_of_not_ok _ T0 x y i hT hall hx hnok
    exact ⟨hlen, by rw [hex, hxy]⟩

/-- The only exchange of a single-request operation decides how it ends. -/
theorem single_ends (http : Transport Product) (rq : Request) (x : Exchange Product)
    (hx : x ∈ (single http rq).trace) :
    (x.out.ok = true → (single http rq).exec = .returned x.out.result none) ∧
    (x.out.ok = false → (single http rq).exec = abortWith Product.zero x.out) := by
  obtain ⟨hT, hcase⟩ := single_shape http rq
  rw [hT, List.mem_singleton] at hx
  subst hx
  rcases hcase with ⟨h1, h2⟩ | ⟨h1, h2⟩
  · exact ⟨fun _ => h2, fun h => by simp only [h1] at h; exact absurd h (by simp)⟩
  · exact ⟨fun h => by simp only [h1] at h; exact absurd h (by simp), fun _ => h2⟩

theorem abortWith_error {α ρ : Type} (zero : ρ) (o : Outcome α) (r : Response)
    (hr : o.res = some r) (hE : r.IsError = true) :
    abortWith zero o = .returned zero (some (.dummy { Message := r.Body })) := by
  simp [abortWith, hr, hE]

theorem abortWith_err {α ρ : Type} (zero : ρ) (o : Outcome α) (r : Response)
    (e : TransportError) (hr : o.res = some r) (hE : r.IsError = false) (he : o.err = some e) :
    abortWith zero o = .returned zero (some (.other e)) := by
  simp [abortWith, hr, hE, he]

/-- Only an error status makes an operation end with a `DummyError`. -/
theorem abortWith_dummy {α ρ : Type} (zero v : ρ) (o : Outcome α) (de : DummyError)
    (h : abortWith zero o = .returned v (some (.dummy de))) :
    ∃ r, o.res = some r ∧ r.IsError = true := by
  unfold abortWith at h
  cases hr : o.res with
  | none => simp [hr] at h
  | some r =>
    by_cases hE : r.IsError = true
    · exact ⟨r, rfl, hE⟩
    · cases he : o.err <;> simp [hr, hE, he] at h

theorem isError_iff (r : Response) : r.IsError = true ↔ 399 < r.StatusCode := by
  simp [Response.IsError]

/-! ## The loop: the claims -/

/-- C4: after a paginated exchange of `GetProducts` that did not fail (the exchange at
position `i + 1`, position 0 being the parameterless request), and with loop
iterations left in the budget, a further request is issued if and only if the
`limit` that the result target holds after that response, the returned limit,
equals 30; neither the requested limit nor the number of items received enters
the decision. -/
theorem GetProducts_continues_iff (http : Transport ProductResponse) (fuel i : Nat)
    (x : Exchange ProductResponse) (hf : i + 2 ≤ fuel)
    (hx : (GetProducts http fuel).trace[i + 1]? = some x) (hok : x.out.ok = true) :
    ((GetProducts http fuel).trace[i + 2]?).isSome = true ↔ x.out.result.Limit = 30 := by
  obtain ⟨_, hT⟩ := GetProducts_tail http fuel i x hx
  rw [hT, List.getElem?_cons_succ] at hx ⊢
  exact loop_continue_iff http fuel 1 0 30 _ [] i x hf hx hok

/-- C4 on two servers: a response with no item and `limit = 30` is followed by a
further request, a response with 30 items and `limit = 7` is not. -/
theorem GetProducts_continues_iff_witness :
    ((((GetProducts (constTransport (some { StatusCode := 200, Body := "" }) none
        { Products := [], Total := 0, Skip := 0, Limit := 30 }) 3).trace[2]?).isSome = true ↔
      (30 : Uint) = 30) ∧
     (((GetProducts (constTransport (some { StatusCode := 200, Body := "" }) none
        { Products := catalogOf 30, Total := 30, Skip := 0, Limit := 7 }) 3).trace[2]?).isSome
          = true ↔ (7 : Uint) = 30)) ∧
    ((GetProducts (constTransport (some { StatusCode := 200, Body := "" }) none
        { Products := [], Total := 0, Skip := 0, Limit := 30 }) 3).trace[2]?).isSome = true ∧
    ((GetProducts (constTransport (some { StatusCode := 200, Body := "" }) none
        { Products := catalogOf 30, Total := 30, Skip := 0, Limit := 7 }) 3).trace[2]?).isSome
          = false :=
  ⟨⟨GetProducts_continues_iff _ 3 0
      { req := pageRequest 30 0,
        out := { res := some { StatusCode := 200, Body := "" }, err := none,
                 result := { Products := [], Total := 0, Skip := 0, Limit := 30 } } }
      (by decide) (by decide) (by decide),
    GetProducts_continues_iff _ 3 0
      { req := pageRequest 30 0,
        out := { res := some { StatusCode := 200, Body := "" }, err := none,
                 result := { Products := catalogOf 30, Total := 30, Skip := 0, Limit := 7 } } }
      (by decide) (by decide) (by decide)⟩,
   by decide, by decide⟩

/-- C5: every paginated request of `GetProducts` (the request at position `i + 1`) is
a GET of `/products` whose query has exactly one `limit`, equal to 30, and exactly
one `skip`, the sum of the limits returned by the paginated responses before it,
computed in Go `int`; that sum is `30 * i`, and it is `0` for the first paginated
request. Below `2 ^ 63` the Go sum is the sum itself. -/
theorem GetProducts_page_request (http : Transport ProductResponse) (fuel i : Nat)
    (x : Exchange ProductResponse) (hx : (GetProducts http fuel).trace[i + 1]? = some x) :
    x.req.Method = .GET ∧ x.req.URL = "/products" ∧ x.req.Body = none ∧
    x.req.QueryParam =
      [("limit", "30"),
       ("skip", Itoa (wrapInt (sumLimits ((GetProducts http fuel).trace.tail.take i) : Nat)))] ∧
    sumLimits ((GetProducts http fuel).trace.tail.take i) = 30 * i ∧
    (sumLimits ((GetProducts http fuel).trace.tail.take i) < 2 ^ 63 →
      x.req.QueryParam =
        [("limit", "30"),
         ("skip", Itoa (sumLimits ((GetProducts http fuel).trace.tail.take i) : Nat))]) := by
  obtain ⟨_, hT⟩ := GetProducts_tail http fuel i x hx
  rw [hT, List.getElem?_cons_succ] at hx
  obtain ⟨h1, h2⟩ := loop_request http fuel 1 0 30 _ [] i x (by decide) hx
  rw [Int.zero_add] at h1
  rw [hT, List.tail_cons, h2, h1]
  refine ⟨rfl, rfl, rfl, rfl, rfl, fun hlt => ?_⟩
  rw [wrapInt_of_range _ (by positivity) (by exact_mod_cast hlt)]
  rfl

/-- C5 on the catalog of 74 products: the paginated requests carry `limit=30` with
`skip=0`, `skip=30` and `skip=60`, and the limits returned before the third sum
to 60. -/
theorem GetProducts_page_request_witness :
    (GetProducts (pagedServer (catalogOf 74)) 5).trace.tail.map (fun x => x.req.QueryParam) =
      [[("limit", "30"), ("skip", "0")], [("limit", "30"), ("skip", "30")],
       [("limit", "30"), ("skip", "60")]] ∧
    sumLimits ((GetProducts (pagedServer (catalogOf 74)) 5).trace.tail.take 2) = 60 :=
  have h := GetProducts_page_request (pagedServer (catalogOf 74)) 5 2
    { req := pageRequest 30 60,
      out := pagedServer (catalogOf 74) 3 (pageRequest 30 60) ProductResponse.zero }
    (by decide)
  ⟨by decide, h.2.2.2.2.1⟩

set_option maxRecDepth 100000 in
/-- C6, on the catalog of 61 products `id: i, tags: [tag<i>]` served in pages of 30:
the three paginated bodies carry the catalog, and the call returns without error
after its four requests, but what it returns is not the concatenation of those
pages: the items `1 .. 30` come back with the tags of the items `31 .. 60`, and
the items 1 and 31 with the tag of item 61, the last one decoded into the array
they point to. The result is the same under the other capacity policy, and the
requests are those of the value-level `GetProducts` on the same catalog. -/
theorem GetProducts_result_not_concat :
    ((List.range 3).map fun k =>
        (taggedServer 61 (k + 1) (pageRequest 30 ((30 * k : Nat) : Int))).body.items
          growCap).flatten = taggedCatalog 61 ∧
    (GetProductsInPlace growCap (taggedServer 61) 4).1 =
      [firstRequest, pageRequest 30 0, pageRequest 30 30, pageRequest 30 60] ∧
    (GetProductsInPlace growCap (taggedServer 61) 4).2 =
      .returned ((List.range 61).map fun i =>
        { taggedProduct i with
          Tags := [if i = 0 ∨ i = 30 then "tag61"
                   else if i < 30 then "tag" ++ toString (i + 31)
                   else "tag" ++ toString (i + 1)] }) none ∧
    ((taggedCatalog 61).take 2).map (fun p => (p.Id, p.Tags)) =
      [(1, ["tag1"]), (2, ["tag2"])] ∧
    (((List.range 61).map fun i =>
        { taggedProduct i with
          Tags := [if i = 0 ∨ i = 30 then "tag61"
                   else if i < 30 then "tag" ++ toString (i + 31)
                   else "tag" ++ toString (i + 1)] }).take 2).map (fun p => (p.Id, p.Tags)) =
      [(1, ["tag61"]), (2, ["tag32"])] ∧
    (GetProductsInPlace growByHalf (taggedServer 61) 4).2 =
      .returned ((List.range 61).map fun i =>
        { taggedProduct i with
          Tags := [if i = 0 ∨ i = 30 then "tag61"
                   else if i < 30 then "tag" ++ toString (i + 31)
                   else "tag" ++ toString (i + 1)] }) none ∧
    (GetProducts (pagedServer (taggedCatalog 61)) 4).trace.map (fun x => x.req) =
      [firstRequest, pageRequest 30 0, pageRequest 30 30, pageRequest 30 60] := by
  refine ⟨by decide, by decide, by decide, by decide, by decide, by decide, by decide⟩

/-- C7: when an exchange of `GetProducts`, at whatever position, comes with a response
whose status is an error status or with a non-nil `err`, it is the last exchange of
the call, which returns the nil list together with the error: the `DummyError`
with the body for an error status, and otherwise the `err` of the HTTP layer;
the items of earlier pages are not returned. -/
theorem GetProducts_aborts_on_failure (http : Transport ProductResponse) (fuel i : Nat)
    (x : Exchange ProductResponse) (r : Response)
    (hx : (GetProducts http fuel).trace[i]? = some x) (hr : x.out.res = some r)
    (hfail : r.IsError = true ∨ x.out.err ≠ none) :
    (GetProducts http fuel).trace.length = i + 1 ∧
    (r.IsError = true →
      (GetProducts http fuel).exec = .returned [] (some (.dummy { Message := r.Body }))) ∧
    (∀ e, r.IsError = false → x.out.err = some e →
      (GetProducts http fuel).exec = .returned [] (some (.other e))) := by
  obtain ⟨hlen, hex⟩ := GetProducts_stops http fuel i x hx ((not_ok_iff _ r hr).2 hfail)
  exact ⟨hlen, fun hE => by rw [hex, abortWith_error _ _ r hr hE],
    fun e hE he => by rw [hex, abortWith_err _ _ r e hr hE he]⟩

/-- C7 on a server that fails on the third request with status 500, after a full
page was received: the call stops there and returns no item. -/
theorem GetProducts_aborts_on_failure_witness :
    (GetProducts (scripted
        [{ res := some { StatusCode := 200, Body := "" }, err := none,
           result := { Products := catalogOf 30, Total := 74, Skip := 0, Limit := 30 } },
         { res := some { StatusCode := 200, Body := "" }, err := none,
           result := { Products := catalogOf 30, Total := 74, Skip := 0, Limit := 30 } }]
        { res := some { StatusCode := 500, Body := "boom" }, err := none,
          result := { Products := catalogOf 30, Total := 74, Skip := 0, Limit := 30 } })
      5).trace.length = 3 ∧
    (GetProducts (scripted
        [{ res := some { StatusCode := 200, Body := "" }, err := none,
           result := { Products := catalogOf 30, Total := 74, Skip := 0, Limit := 30 } },
         { res := some { StatusCode := 200, Body := "" }, err := none,
           result := { Products := catalogOf 30, Total := 74, Skip := 0, Limit := 30 } }]
        { res := some { StatusCode := 500, Body := "boom" }, err := none,
          result := { Products := catalogOf 30, Total := 74, Skip := 0, Limit := 30 } })
      5).exec = .returned [] (some (.dummy { Message := "boom" })) :=
  have h := GetProducts_aborts_on_failure (scripted
        [{ res := some { StatusCode := 200, Body := "" }, err := none,
           result := { Products := catalogOf 30, Total := 74, Skip := 0, Limit := 30 } },
         { res := some { StatusCode := 200, Body := "" }, err := none,
           result := { Products := catalogOf 30, Total := 74, Skip := 0, Limit := 30 } }]
        { res := some { StatusCode := 500, Body := "boom" }, err := none,
          result := { Products := catalogOf 30, Total := 74, Skip := 0, Limit := 30 } })
      5 2
      { req := pageRequest 30 30,
        out := { res := some { StatusCode := 500, Body := "boom" }, err := none,
                 result := { Products := catalogOf 30, Total := 74, Skip := 0, Limit := 30 } } }
      { StatusCode := 500, Body := "boom" } (by decide) rfl (Or.inl (by decide))
  ⟨h.1, h.2.1 (by decide)⟩

/-! ## Errors: shared facts -/

theorem GetProducts_shaped (http : Transport ProductResponse) (fuel : Nat) :
    Shaped (GetProducts http fuel) [] := by
  rcases GetProducts_shape http fuel with ⟨hall, hex | hex⟩ | h
  · exact Or.inl ⟨hall, fun v e h => by rw [hex] at h; simp at h⟩
  · exact Or.inl ⟨hall, fun v e h => by rw [hex] at h; simp at h⟩
  · exact Or.inr h

theorem single_shaped (http : Transport Product) (rq : Request) :
    Shaped (single http rq) Product.zero := by
  obtain ⟨hT, hcase⟩ := single_shape http rq
  rcases hcase with ⟨h1, h2⟩ | ⟨h1, h2⟩
  · left
    refine ⟨fun x hx => ?_, fun v e h => by rw [h2] at h; simp at h⟩
    rw [hT, List.mem_singleton] at hx
    rw [hx]
    exact h1
  · right
    exact ⟨[], { req := rq, out := http 0 rq Product.zero }, by rw [hT]; rfl, by simp, h1, h2⟩

/-- In a shaped execution an exchange that is not ok ends the execution. -/
theorem shaped_stops {α ρ : Type} (R : Run α ρ) (zero : ρ) (hS : Shaped R zero)
    (x : Exchange α) (hx : x ∈ R.trace) (hnok : x.out.ok = false) :
    R.exec = abortWith zero x.out := by
  rcases hS with ⟨hall, _⟩ | ⟨T0, y, hT, hall, _, hex⟩
  · have := hall x hx
    rw [hnok] at this
    exact absurd this (by simp)
  · rw [hT, List.mem_append, List.mem_singleton] at hx
    rcases hx with hx | hx
    · have := hall x hx
      rw [hnok] at this
      exact absurd this (by simp)
    · rw [hex, hx]

theorem shaped_remoteError {α ρ : Type} (R : Run α ρ) (zero : ρ) (hS : Shaped R zero) :
    RemoteErrorVerbatim R zero := by
  intro x hx r hr hE
  rw [shaped_stops R zero hS x hx ((not_ok_iff _ r hr).2 (Or.inl hE)),
    abortWith_error _ _ r hr hE]

theorem shaped_passes {α ρ : Type} (R : Run α ρ) (zero : ρ) (hS : Shaped R zero) :
    PassesTransportError R zero := by
  intro x hx r e hr hE he
  rw [shaped_stops R zero hS x hx ((not_ok_iff _ r hr).2 (Or.inr (by simp [he]))),
    abortWith_err _ _ r e hr hE he]

theorem shaped_dummy_iff {α ρ : Type} (R : Run α ρ) (zero : ρ) (hS : Shaped R zero) :
    DummyErrorIffErrorStatus R := by
  constructor
  · rintro ⟨v, de, h⟩
    rcases hS with ⟨_, hne⟩ | ⟨T0, y, hT, _, _, hex⟩
    · exact absurd h (hne v _)
    · rw [hex] at h
      obtain ⟨r, hr, hE⟩ := abortWith_dummy _ _ _ _ h
      exact ⟨y, by rw [hT]; simp, r, hr, hE⟩
  · rintro ⟨x, hx, r, hr, hE⟩
    exact ⟨zero, { Message := r.Body }, shaped_remoteError R zero hS x hx r hr hE⟩

theorem ok_of_status {α : Type} (o : Outcome α) (r : Response) (hr : o.res = some r)
    (hs : r.StatusCode ≤ 399) (he : o.err = none) : o.ok = true := by
  have hE : r.IsError = false := by
    simp [Response.IsError]
    omega
  simp [Outcome.ok, hr, he, hE]

theorem single_noError (http : Transport Product) (rq : Request) :
    NoErrorUpTo399 (single http rq) := by
  intro x hx r hr hs he
  exact (single_ends http rq x hx).1 (ok_of_status _ r hr hs he)

theorem shaped_errorAbove {α ρ : Type} (R : Run α ρ) (zero : ρ) (hS : Shaped R zero) :
    ErrorAbove399 R zero := by
  intro x hx r hr hs
  exact shaped_remoteError R zero hS x hx r hr ((isError_iff r).2 hs)

/-! ## A status up to 399 is treated as a success -/

theorem asSuccess_ok {α : Type} (http : Transport α) (n : Nat) (rq : Request) (p : α) :
    (asSuccess http n rq p).ok = (http n rq p).ok := by
  unfold asSuccess Outcome.ok
  cases hr : (http n rq p).res with
  | none => simp
  | some r =>
    cases he : (http n rq p).err with
    | some e => simp
    | none =>
      by_cases hs : r.StatusCode ≤ 399
      · simp [hs, Response.IsError]
      · simp [hs]

theorem asSuccess_abortWith {α ρ : Type} (zero : ρ) (http : Transport α) (n : Nat)
    (rq : Request) (p : α) :
    abortWith zero (asSuccess http n rq p) = abortWith zero (http n rq p) := by
  unfold asSuccess abortWith
  cases hr : (http n rq p).res with
  | none => simp
  | some r =>
    by_cases hs : r.StatusCode ≤ 399
    · have h1 : ¬ 399 < r.StatusCode := by omega
      simp [hs, h1, Response.IsError]
    · simp [hs]

/-- Every status that `asSuccess` lets through is 200 or above 399. -/
theorem asSuccess_status {α : Type} (http : Transport α) (n : Nat) (rq : Request) (p : α)
    (r : Response) (h : (asSuccess http n rq p).res = some r) :
    r.StatusCode = 200 ∨ 399 < r.StatusCode := by
  unfold asSuccess at h
  cases hr : (http n rq p).res with
  | none => simp [hr] at h
  | some r0 =>
    simp only [hr, Option.map_some', Option.some.injEq] at h
    by_cases hs : r0.StatusCode ≤ 399
    · rw [if_pos hs] at h
      subst h
      exact Or.inl rfl
    · rw [if_neg hs] at h
      subst h
      exact Or.inr (by omega)

/-- The loop treats every status up to 399 as it treats 200. -/
theorem loop_asSuccess (http : Transport ProductResponse) :
    ∀ (fuel n : Nat) (skip limit : Int) (p : ProductResponse) (ps : List Product),
      (GetProductsLoop (asSuccess http) fuel n skip limit p ps).exec =
        (GetProductsLoop http fuel n skip limit p ps).exec ∧
      (GetProductsLoop (asSuccess http) fuel n skip limit p ps).trace.map
          (fun x => (x.req, x.out.err, x.out.result)) =
        (GetProductsLoop http fuel n skip limit p ps).trace.map
          (fun x => (x.req, x.out.err, x.out.result)) ∧
      ∀ x ∈ (GetProductsLoop (asSuccess http) fuel n skip limit p ps).trace, ∀ r,
        x.out.res = some r → r.StatusCode = 200 ∨ 399 < r.StatusCode := by
  intro fuel
  induction fuel with
  | zero =>
    intro n skip limit p ps
    by_cases hl : limit = 30 <;> simp [GetProductsLoop, hl]
  | succ fuel ih =>
    intro n skip limit p ps
    by_cases hl : limit = 30
    · subst hl
      have hokeq := asSuccess_ok http n (pageRequest 30 skip) p
      have hres : (asSuccess http n (pageRequest 30 skip) p).result =
          (http n (pageRequest 30 skip) p).result := rfl
      have herr : (asSuccess http n (pageRequest 30 skip) p).err =
          (http n (pageRequest 30 skip) p).err := rfl
      rw [loop_step, loop_step]
      by_cases hok : (http n (pageRequest 30 skip) p).ok = true
      · have hok' : (asSuccess http n (pageRequest 30 skip) p).ok = true := by
          rw [hokeq]; exact hok
        rw [checked_ok _ _ _ hok, checked_ok _ _ _ hok', hres]
        obtain ⟨h1, h2, h3⟩ := ih (n + 1)
          (wrapInt (skip + intOfUint (http n (pageRequest 30 skip) p).result.Limit))
          (intOfUint (http n (pageRequest 30 skip) p).result.Limit)
          (http n (pageRequest 30 skip) p).result
          (ps ++ (http n (pageRequest 30 skip) p).result.Products)
        refine ⟨by simp only [Run.after, h1], ?_, ?_⟩
        · simp only [Run.after, List.map_cons, h2, herr, hres]
        · intro x hx r hr
          simp only [Run.after, List.mem_cons] at hx
          rcases hx with hx | hx
          · subst hx
            exact asSuccess_status http n _ p r hr
          · exact h3 x hx r hr
      · have hok2 : (http n (pageRequest 30 skip) p).ok = false := by simpa using hok
        have hok2' : (asSuccess http n (pageRequest 30 skip) p).ok = false := by
          rw [hokeq]; exact hok2
        rw [checked_not_ok _ _ _ hok2, checked_not_ok _ _ _ hok2']
        refine ⟨?_, ?_, ?_⟩
        · simp only [Run.after]
          exact asSuccess_abortWith _ http n _ p
        · simp only [Run.after, List.map_cons, List.map_nil, herr, hres]
        · intro x hx r hr
          simp only [Run.after, List.mem_singleton] at hx
          subst hx
          exact asSuccess_status http n _ p r hr
    · rw [loop_stop _ _ _ _ _ _ _ hl, loop_stop _ _ _ _ _ _ _ hl]
      exact ⟨rfl, rfl, by simp⟩

/-- `GetProducts` treats every status up to 399 as it treats 200. -/
theorem GetProducts_asSuccess (http : Transport ProductResponse) (fuel : Nat) :
    (GetProducts (asSuccess http) fuel).exec = (GetProducts http fuel).exec ∧
    (GetProducts (asSuccess http) fuel).trace.map
        (fun x => (x.req, x.out.err, x.out.result)) =
      (GetProducts http fuel).trace.map (fun x => (x.req, x.out.err, x.out.result)) ∧
    ∀ x ∈ (GetProducts (asSuccess http) fuel).trace, ∀ r, x.out.res = some r →
      r.StatusCode = 200 ∨ 399 < r.StatusCode := by
  have hokeq := asSuccess_ok http 0 firstRequest ProductResponse.zero
  have hres : (asSuccess http 0 firstRequest ProductResponse.zero).result =
      (http 0 firstRequest ProductResponse.zero).result := rfl
  have herr : (asSuccess http 0 firstRequest ProductResponse.zero).err =
      (http 0 firstRequest ProductResponse.zero).err := rfl
  rw [GetProducts_eq, GetProducts_eq]
  by_cases hok : (http 0 firstRequest ProductResponse.zero).ok = true
  · have hok' : (asSuccess http 0 firstRequest ProductResponse.zero).ok = true := by
      rw [hokeq]; exact hok
    rw [checked_ok _ _ _ hok, checked_ok _ _ _ hok', hres]
    obtain ⟨h1, h2, h3⟩ := loop_asSuccess http fuel 1 0 30
      (http 0 firstRequest ProductResponse.zero).result []
    refine ⟨by simp only [Run.after, h1], ?_, ?_⟩
    · simp only [Run.after, List.map_cons, h2, herr, hres]
    · intro x hx r hr
      simp only [Run.after, List.mem_cons] at hx
      rcases hx with hx | hx
      · subst hx
        exact asSuccess_status http 0 _ _ r hr
      · exact h3 x hx r hr
  · have hok2 : (http 0 firstRequest ProductResponse.zero).ok = false := by simpa using hok
    have hok2' : (asSuccess http 0 firstRequest ProductResponse.zero).ok = false := by
      rw [hokeq]; exact hok2
    rw [checked_not_ok _ _ _ hok2, checked_not_ok _ _ _ hok2']
    refine ⟨?_, ?_, ?_⟩
    · simp only [Run.after]
      exact asSuccess_abortWith _ http 0 _ _
    · simp only [Run.after, List.map_cons, List.map_nil, herr, hres]
    · intro x hx r hr
      simp only [Run.after, List.mem_singleton] at hx
      subst hx
      exact asSuccess_status http 0 _ _ r hr

/-- After a response with a status up to 399 and a nil `err`, `GetProducts` goes on
as after a success: the parameterless exchange is followed by the request
`limit=30&skip=0`, and a paginated exchange is followed by a further request
exactly when the result target holds `limit = 30`, as long as loop iterations are
left. -/
theorem GetProducts_goes_on (http : Transport ProductResponse) (fuel : Nat) :
    (∀ x r, (GetProducts http fuel).trace[0]? = some x → x.out.res = some r →
      r.StatusCode ≤ 399 → x.out.err = none → 0 < fuel →
      (GetProducts http fuel).trace[1]?.map (fun y => y.req) = some (pageRequest 30 0)) ∧
    (∀ i x r, (GetProducts http fuel).trace[i + 1]? = some x → x.out.res = some r →
      r.StatusCode ≤ 399 → x.out.err = none → i + 2 ≤ fuel →
      (((GetProducts http fuel).trace[i + 2]?).isSome = true ↔ x.out.result.Limit = 30)) := by
  refine ⟨?_, ?_⟩
  · intro x r hx hr hs he hf
    have hx0 : x = { req := firstRequest, out := http 0 firstRequest ProductResponse.zero } := by
      rw [GetProducts_eq] at hx
      simp only [Run.after, List.getElem?_cons_zero] at hx
      exact (Option.some.inj hx).symm
    subst hx0
    have hok := ok_of_status _ r hr hs he
    obtain ⟨f, rfl⟩ : ∃ f, fuel = f + 1 := ⟨fuel - 1, by omega⟩
    rw [GetProducts_eq, checked_ok _ _ _ hok, loop_step]
    simp only [Run.after, List.getElem?_cons_succ, List.getElem?_cons_zero, Option.map_some']
  · intro i x r hx hr hs he hf
    have hok := ok_of_status _ r hr hs he
    obtain ⟨_, hT⟩ := GetProducts_tail http fuel i x hx
    rw [hT, List.getElem?_cons_succ] at hx ⊢
    exact loop_continue_iff http fuel 1 0 30 _ [] i x hf hx hok

/-! ## Errors: the claims -/

/-- C8: for each of `GetProducts`, `GetProduct`, `UploadProduct`, `UpdateProduct` and
`DeleteProduct`, a response with an error status and body `b` makes the operation
return the `DummyError` whose message is exactly `b`, together with the zero
`Product` (the nil list for `GetProducts`), whatever the result target holds. -/
theorem remote_error_verbatim (list : Transport ProductResponse) (fuel : Nat)
    (http : Transport Product) (id : Int) (prod : Product) :
    RemoteErrorVerbatim (GetProducts list fuel) [] ∧
    RemoteErrorVerbatim (GetProduct http id) Product.zero ∧
    RemoteErrorVerbatim (UploadProduct http prod) Product.zero ∧
    RemoteErrorVerbatim (UpdateProduct http id prod) Product.zero ∧
    RemoteErrorVerbatim (DeleteProduct http id) Product.zero :=
  ⟨shaped_remoteError _ _ (GetProducts_shaped list fuel),
   shaped_remoteError _ _ (single_shaped http _),
   shaped_remoteError _ _ (single_shaped http _),
   shaped_remoteError _ _ (single_shaped http _),
   shaped_remoteError _ _ (single_shaped http _)⟩

/-- C8 on a server that answers 404 with the body `product not found` while the
result target holds a product: every operation returns that body and a zero value. -/
theorem remote_error_verbatim_witness :
    (GetProducts (constTransport (some { StatusCode := 404, Body := "product not found" }) none
        { Products := catalogOf 3, Total := 3, Skip := 0, Limit := 3 }) 4).exec =
      .returned [] (some (.dummy { Message := "product not found" })) ∧
    (GetProduct (constTransport (some { StatusCode := 404, Body := "product not found" }) none
        (mkProduct 6)) 7).exec =
      .returned Product.zero (some (.dummy { Message := "product not found" })) ∧
    (UploadProduct (constTransport (some { StatusCode := 404, Body := "product not found" })
        none (mkProduct 6)) (mkProduct 6)).exec =
      .returned Product.zero (some (.dummy { Message := "product not found" })) ∧
    (UpdateProduct (constTransport (some { StatusCode := 404, Body := "product not found" })
        none (mkProduct 6)) 7 (mkProduct 6)).exec =
      .returned Product.zero (some (.dummy { Message := "product not found" })) ∧
    (DeleteProduct (constTransport (some { StatusCode := 404, Body := "product not found" })
        none (mkProduct 6)) 7).exec =
      .returned Product.zero (some (.dummy { Message := "product not found" })) :=
  have h := remote_error_verbatim
    (constTransport (some { StatusCode := 404, Body := "product not found" }) none
      { Products := catalogOf 3, Total := 3, Skip := 0, Limit := 3 }) 4
    (constTransport (some { StatusCode := 404, Body := "product not found" }) none
      (mkProduct 6)) 7 (mkProduct 6)
  ⟨h.1 _ (List.mem_singleton.2 rfl) { StatusCode := 404, Body := "product not found" } rfl
      (by decide),
   h.2.1 _ (List.mem_singleton.2 rfl) { StatusCode := 404, Body := "product not found" } rfl
      (by decide),
   h.2.2.1 _ (List.mem_singleton.2 rfl) { StatusCode := 404, Body := "product not found" } rfl
      (by decide),
   h.2.2.2.1 _ (List.mem_singleton.2 rfl) { StatusCode := 404, Body := "product not found" } rfl
      (by decide),
   h.2.2.2.2 _ (List.mem_singleton.2 rfl) { StatusCode := 404, Body := "product not found" } rfl
      (by decide)⟩

/-- C9, as stated, fails: a response with status 304 and no `err` makes `GetProduct`
return a zero `Product` with a nil error, and `GetProducts` a nil list with a nil
error; no `DummyError` is returned although the status is not 2xx. -/
theorem non_2xx_counterexample :
    (GetProduct (constTransport (some { StatusCode := 304, Body := "not modified" }) none
        Product.zero) 123).exec = .returned Product.zero none ∧
    (GetProducts (constTransport (some { StatusCode := 304, Body := "not modified" }) none
        ProductResponse.zero) 3).exec = .returned [] none ∧
    ({ StatusCode := 304, Body := "not modified" } : Response).IsSuccess = false := by
  decide

/-- C9, amended: a response with a status above 399 makes each operation return the
`DummyError` whose message is the raw body; a response with a status up to 399 and
a nil `err` makes `GetProduct`, `UploadProduct`, `UpdateProduct` and `DeleteProduct`
return the result target with a nil error, and is not what makes `GetProducts`
fail: if `GetProducts` returns an error, a later exchange exists; and `GetProducts`
treats every status up to 399 as it treats the success status 200: with each such
status replaced by 200 it issues the same requests, finds the same `err` and the
same result target after each of them, and ends in the same way. In particular,
after a response with a status up to 399 and a nil `err` the parameterless
exchange is followed by the request `limit=30&skip=0`, and a paginated exchange
is followed by a further request exactly when the result target holds
`limit = 30`, as long as loop iterations are left. -/
theorem error_status_threshold (list : Transport ProductResponse) (fuel : Nat)
    (http : Transport Product) (id : Int) (prod : Product) :
    (ErrorAbove399 (GetProducts list fuel) [] ∧
      ErrorAbove399 (GetProduct http id) Product.zero ∧
      ErrorAbove399 (UploadProduct http prod) Product.zero ∧
      ErrorAbove399 (UpdateProduct http id prod) Product.zero ∧
      ErrorAbove399 (DeleteProduct http id) Product.zero) ∧
    (NoErrorUpTo399 (GetProduct http id) ∧
      NoErrorUpTo399 (UploadProduct http prod) ∧
      NoErrorUpTo399 (UpdateProduct http id prod) ∧
      NoErrorUpTo399 (DeleteProduct http id)) ∧
    (∀ i x r, (GetProducts list fuel).trace[i]? = some x → x.out.res = some r →
      r.StatusCode ≤ 399 → x.out.err = none →
      ∀ v e, (GetProducts list fuel).exec = .returned v (some e) →
        i + 1 < (GetProducts list fuel).trace.length) ∧
    ((GetProducts (asSuccess list) fuel).exec = (GetProducts list fuel).exec ∧
      (GetProducts (asSuccess list) fuel).trace.map
          (fun x => (x.req, x.out.err, x.out.result)) =
        (GetProducts list fuel).trace.map (fun x => (x.req, x.out.err, x.out.result)) ∧
      ∀ x ∈ (GetProducts (asSuccess list) fuel).trace, ∀ r, x.out.res = some r →
        r.StatusCode = 200 ∨ 399 < r.StatusCode) ∧
    ((∀ x r, (GetProducts list fuel).trace[0]? = some x → x.out.res = some r →
        r.StatusCode ≤ 399 → x.out.err = none → 0 < fuel →
        (GetProducts list fuel).trace[1]?.map (fun y => y.req) = some (pageRequest 30 0)) ∧
      (∀ i x r, (GetProducts list fuel).trace[i + 1]? = some x → x.out.res = some r →
        r.StatusCode ≤ 399 → x.out.err = none → i + 2 ≤ fuel →
        (((GetProducts list fuel).trace[i + 2]?).isSome = true ↔
          x.out.result.Limit = 30))) := by
  refine ⟨⟨shaped_errorAbove _ _ (GetProducts_shaped list fuel),
    shaped_errorAbove _ _ (single_shaped http _), shaped_errorAbove _ _ (single_shaped http _),
    shaped_errorAbove _ _ (single_shaped http _), shaped_errorAbove _ _ (single_shaped http _)⟩,
    ⟨single_noError http _, single_noError http _, single_noError http _,
      single_noError http _⟩, ?_, GetProducts_asSuccess list fuel,
    GetProducts_goes_on list fuel⟩
  intro i x r hx hr hs he v e hex
  have hok := ok_of_status _ r hr hs he
  rcases GetProducts_shape list fuel with ⟨_, h | h⟩ | ⟨T0, y, hT, hall, hy, _⟩
  · rw [hex] at h
    simp at h
  · rw [hex] at h
    simp at h
  · rw [hT] at hx ⊢
    by_cases hlt : i < T0.length
    · simp
      omega
    · have hle : i ≤ T0.length := by
        by_contra hc
        rw [List.getElem?_eq_none (by simp; omega)] at hx
        simp at hx
      have heq : i = T0.length := by omega
      subst heq
      rw [List.getElem?_concat_length] at hx
      rw [Option.some.inj hx, hok] at hy
      exact absurd hy (by simp)

/-- C9, amended, on servers that answer every request alike: status 500 gives the
`DummyError` with the body, status 304 gives the result target and a nil error,
and `GetProducts` on status 304 with `limit = 30` in the result target goes on
to the next request as it does on status 200. -/
theorem error_status_threshold_witness :
    (GetProduct (constTransport (some { StatusCode := 500, Body := "oops" }) none
        (mkProduct 6)) 7).exec = .returned Product.zero (some (.dummy { Message := "oops" })) ∧
    (GetProduct (constTransport (some { StatusCode := 304, Body := "oops" }) none
        (mkProduct 6)) 7).exec = .returned (mkProduct 6) none ∧
    (GetProducts (constTransport (some { StatusCode := 304, Body := "" }) none
        { Products := catalogOf 2, Total := 2, Skip := 0, Limit := 30 }) 2).trace.map
          (fun x => x.req) = [firstRequest, pageRequest 30 0, pageRequest 30 30] ∧
    (GetProducts (constTransport (some { StatusCode := 200, Body := "" }) none
        { Products := catalogOf 2, Total := 2, Skip := 0, Limit := 30 }) 2).trace.map
          (fun x => x.req) = [firstRequest, pageRequest 30 0, pageRequest 30 30] ∧
    (GetProducts (asSuccess (constTransport (some { StatusCode := 304, Body := "" }) none
        { Products := catalogOf 2, Total := 2, Skip := 0, Limit := 30 })) 2).exec =
      (GetProducts (constTransport (some { StatusCode := 304, Body := "" }) none
        { Products := catalogOf 2, Total := 2, Skip := 0, Limit := 30 }) 2).exec :=
  ⟨(error_status_threshold (constTransport none none ProductResponse.zero) 0
      (constTransport (some { StatusCode := 500, Body := "oops" }) none (mkProduct 6)) 7
      Product.zero).1.2.1 _ (List.mem_singleton.2 rfl) { StatusCode := 500, Body := "oops" } rfl
      (by decide),
   (error_status_threshold (constTransport none none ProductResponse.zero) 0
      (constTransport (some { StatusCode := 304, Body := "oops" }) none (mkProduct 6)) 7
      Product.zero).2.1.1 _ (List.mem_singleton.2 rfl) { StatusCode := 304, Body := "oops" } rfl
      (by decide) rfl,
   by decide, by decide,
   (error_status_threshold (constTransport (some { StatusCode := 304, Body := "" }) none
      { Products := catalogOf 2, Total := 2, Skip := 0, Limit := 30 }) 2
      (constTransport none none Product.zero) 7 Product.zero).2.2.2.1.1⟩

/-- C10: in every operation, an `err` of the HTTP layer that comes with a response
whose status is not an error status is returned as that very value (it is not a
`DummyError`), together with the zero result; and the operation returns a
`DummyError` if and only if one of its exchanges received a response with an
error status. -/
theorem transport_error_passed_on (list : Transport ProductResponse) (fuel : Nat)
    (http : Transport Product) (id : Int) (prod : Product) :
    (PassesTransportError (GetProducts list fuel) [] ∧
      PassesTransportError (GetProduct http id) Product.zero ∧
      PassesTransportError (UploadProduct http prod) Product.zero ∧
      PassesTransportError (UpdateProduct http id prod) Product.zero ∧
      PassesTransportError (DeleteProduct http id) Product.zero) ∧
    (DummyErrorIffErrorStatus (GetProducts list fuel) ∧
      DummyErrorIffErrorStatus (GetProduct http id) ∧
      DummyErrorIffErrorStatus (UploadProduct http prod) ∧
      DummyErrorIffErrorStatus (UpdateProduct http id prod) ∧
      DummyErrorIffErrorStatus (DeleteProduct http id)) :=
  ⟨⟨shaped_passes _ _ (GetProducts_shaped list fuel),
    shaped_passes _ _ (single_shaped http _), shaped_passes _ _ (single_shaped http _),
    shaped_passes _ _ (single_shaped http _), shaped_passes _ _ (single_shaped http _)⟩,
   ⟨shaped_dummy_iff _ _ (GetProducts_shaped list fuel),
    shaped_dummy_iff _ _ (single_shaped http _), shaped_dummy_iff _ _ (single_shaped http _),
    shaped_dummy_iff _ _ (single_shaped http _), shaped_dummy_iff _ _ (single_shaped http _)⟩⟩

/-- C10 on a refused connection (a response object without HTTP response, status 0,
and a non-nil `err`): `GetProducts` and `GetProduct` return that `err`. -/
theorem transport_error_passed_on_witness :
    (GetProducts (constTransport (some { StatusCode := 0, Body := "" })
        (some { text := "connection refused" }) ProductResponse.zero) 3).exec =
      .returned [] (some (.other { text := "connection refused" })) ∧
    (GetProduct (constTransport (some { StatusCode := 0, Body := "" })
        (some { text := "connection refused" }) Product.zero) 7).exec =
      .returned Product.zero (some (.other { text := "connection refused" })) :=
  have h := transport_error_passed_on
    (constTransport (some { StatusCode := 0, Body := "" })
      (some { text := "connection refused" }) ProductResponse.zero) 3
    (constTransport (some { StatusCode := 0, Body := "" })
      (some { text := "connection refused" }) Product.zero) 7 Product.zero
  ⟨h.1.1 _ (List.mem_singleton.2 rfl) { StatusCode := 0, Body := "" }
      { text := "connection refused" } rfl (by decide) rfl,
   h.1.2.1 _ (List.mem_singleton.2 rfl) { StatusCode := 0, Body := "" }
      { text := "connection refused" } rfl (by decide) rfl⟩

/-! ## Signed decimal rendering -/

theorem Itoa_ofNat_data (n : Nat) :
    (Itoa (n : Int)).data = Nat.toDigitsCore 10 (n + 1) n [] := rfl

theorem Itoa_negSucc_data (m : Nat) :
    (Itoa (Int.negSucc m)).data = '-' :: Nat.toDigitsCore 10 (m + 1 + 1) (m + 1) [] := rfl

/-- Reading back the decimal rendering of an integer gives the integer. -/
theorem AtoiInt_Itoa (i : Int) : AtoiInt (Itoa i) = some i := by
  cases i with
  | ofNat n =>
    obtain ⟨h1, h2, h3⟩ := toDigitsCore_spec (n + 1) n (Nat.lt_succ_self n)
    have hd : (Itoa (Int.ofNat n)).data = Nat.toDigitsCore 10 (n + 1) n [] := rfl
    unfold AtoiInt
    rw [hd]
    cases hds : Nat.toDigitsCore 10 (n + 1) n [] with
    | nil => exact absurd hds h1
    | cons c cs =>
      rw [hds] at h2 h3
      have hc : c ≠ '-' := by
        intro hc
        rw [hc] at h2
        simp at h2
      simp only [hc, if_false, h2, if_true, h3]
      rfl
  | negSucc m =>
    obtain ⟨h1, h2, h3⟩ := toDigitsCore_spec (m + 1 + 1) (m + 1) (Nat.lt_succ_self _)
    unfold AtoiInt
    rw [Itoa_negSucc_data]
    simp only [if_true, h2, h3, and_true, ne_eq, h1, not_false_eq_true]
    rfl

theorem Itoa_injective (a b : Int) (h : Itoa a = Itoa b) : a = b := by
  have h2 := congrArg AtoiInt h
  rw [AtoiInt_Itoa, AtoiInt_Itoa] at h2
  exact Option.some.inj h2

theorem productPath_injective (a b : Int) (h : productPath a = productPath b) : a = b := by
  unfold productPath at h
  have h2 := congrArg String.data h
  rw [String.data_append, String.data_append] at h2
  exact Itoa_injective a b (String.ext (List.append_cancel_left h2))

theorem single_trace (http : Transport Product) (rq : Request) :
    (single http rq).trace = [{ req := rq, out := http 0 rq Product.zero }] :=
  (single_shape http rq).1

theorem isError_of_isSuccess (r : Response) (h : r.IsSuccess = true) : r.IsError = false := by
  simp [Response.IsSuccess] at h
  simp [Response.IsError]
  omega

/-- A success status with a nil `err` makes a single-request operation return the
result target with a nil error. -/
theorem single_success (http : Transport Product) (rq : Request) (r : Response)
    (hr : (http 0 rq Product.zero).res = some r) (hs : r.IsSuccess = true)
    (he : (http 0 rq Product.zero).err = none) :
    (single http rq).exec = .returned (http 0 rq Product.zero).result none := by
  have hok : (http 0 rq Product.zero).ok = true := by
    simp [Outcome.ok, hr, he, isError_of_isSuccess r hs]
  rw [single_eq, checked_ok _ _ _ hok]
  rfl

/-! ## Error text and single-request operations: the claims -/

/-- C11: for every message `m`, the error text of `DummyError{Message: m}` is the fixed
text `error from the server: ` followed by `m` unchanged, so it contains `m` as a
contiguous part; the error that `GetProduct` returns for status 404 with body
`product not found` has a text that ends with exactly that body. -/
theorem DummyError_Error_text (m : String) :
    (DummyError.mk m).Error = "error from the server: " ++ m ∧
    (∃ pre post : String, (DummyError.mk m).Error = pre ++ m ++ post) ∧
    List.IsInfix m.data (DummyError.mk m).Error.data ∧
    (∃ e, (GetProduct (constTransport (some { StatusCode := 404, Body := "product not found" })
        none Product.zero) 123).exec = .returned Product.zero (some e) ∧
      e.Error = "error from the server: product not found") := by
  refine ⟨rfl, ⟨"error from the server: ", "", ?_⟩, ?_, ?_⟩
  · simp [DummyError.Error]
  · refine ⟨"error from the server: ".data, [], ?_⟩
    simp [DummyError.Error, String.data_append]
  · exact ⟨.dummy { Message := "product not found" }, by decide, by decide⟩

/-- C12: for every integer `id`, zero and negative values included, `GetProduct`
issues exactly one request, whatever its outcome: a GET without query or body whose
path is `/products/` followed by the decimal rendering of `id`; distinct ids give
distinct paths, so the id reaches the server unaltered. -/
theorem GetProduct_request (http : Transport Product) (id : Int) :
    (GetProduct http id).trace.map (fun x => x.req) =
      [{ Method := .GET, URL := "/products/" ++ Itoa id, QueryParam := [], Body := none }] ∧
    (GetProduct http id).trace.length = 1 ∧
    (∀ id2 : Int, "/products/" ++ Itoa id = "/products/" ++ Itoa id2 → id = id2) := by
  refine ⟨?_, ?_, fun id2 h => productPath_injective id id2 h⟩
  · unfold GetProduct
    rw [single_trace]
    rfl
  · unfold GetProduct
    rw [single_trace]
    rfl

/-- C12 at the ids 123, 0 and -7, on a server that answers 404, on a refused
connection and on a server that answers 200. -/
theorem GetProduct_request_witness :
    (GetProduct (constTransport (some { StatusCode := 404, Body := "" }) none Product.zero)
      123).trace.map (fun x => x.req) =
      [{ Method := .GET, URL := "/products/123", QueryParam := [], Body := none }] ∧
    (GetProduct (constTransport (some { StatusCode := 0, Body := "" })
      (some { text := "connection refused" }) Product.zero) 0).trace.map (fun x => x.req) =
      [{ Method := .GET, URL := "/products/0", QueryParam := [], Body := none }] ∧
    (GetProduct (constTransport (some { StatusCode := 200, Body := "" }) none Product.zero)
      (-7)).trace.map (fun x => x.req) =
      [{ Method := .GET, URL := "/products/-7", QueryParam := [], Body := none }] :=
  ⟨(GetProduct_request _ 123).1.trans (by decide),
   (GetProduct_request _ 0).1.trans (by decide),
   (GetProduct_request _ (-7)).1.trans (by decide)⟩

/-- How `GetProduct` ends over the decoding HTTP layer on a success response that the
network delivers without error. -/
theorem GetProduct_decoding (decode : ContentKind → String → Product → Product × Option TransportError)
    (wire : Nat → Request → Wire) (id : Int) (r : Response) (k : ContentKind)
    (hw : wire 0 { Method := .GET, URL := productPath id, QueryParam := [], Body := none } =
      { res := some r, kind := k, err := none })
    (hs : r.IsSuccess = true) :
    (GetProduct (decodingTransport decode wire) id).exec =
      if r.StatusCode ≠ 204 ∧ k ≠ .other then
        match (decode k r.Body Product.zero).2 with
        | none => .returned (decode k r.Body Product.zero).1 none
        | some e => .returned Product.zero (some (.other e))
      else .returned Product.zero none := by
  have hE := isError_of_isSuccess r hs
  unfold GetProduct
  rw [single_eq]
  by_cases hd : r.StatusCode ≠ 204 ∧ k ≠ .other
  · rw [if_pos hd]
    have ho : decodingTransport decode wire 0
        { Method := .GET, URL := productPath id, QueryParam := [], Body := none } Product.zero =
        { res := some r, err := (decode k r.Body Product.zero).2,
          result := (decode k r.Body Product.zero).1 } := by
      simp only [decodingTransport, hw]
      rw [if_pos ⟨hs, hd⟩]
    rw [ho]
    cases he : (decode k r.Body Product.zero).2 <;> simp [checked, Run.after, hE]
  · rw [if_neg hd]
    have ho : decodingTransport decode wire 0
        { Method := .GET, URL := productPath id, QueryParam := [], Body := none } Product.zero =
        { res := some r, err := none, result := Product.zero } := by
      simp only [decodingTransport, hw]
      rw [if_neg (fun h => hd h.2)]
    rw [ho]
    simp [checked, Run.after, hE]

/-- C13, as stated, fails: two calls of `GetProduct` receive status 200 and the same
body, the JSON object with `id` 195, the one with a JSON Content-Type and the other
with a Content-Type that is neither JSON nor XML; the first returns the item with
id 195, the second the zero item, both with a nil error. -/
theorem GetProduct_same_body_counterexample :
    (GetProduct (decodingTransport sampleDecode (fun _ _ =>
        { res := some { StatusCode := 200, Body := "\x7b\"id\":195\x7d" }, kind := .json,
          err := none })) 195).exec = .returned { Product.zero with Id := 195 } none ∧
    (GetProduct (decodingTransport sampleDecode (fun _ _ =>
        { res := some { StatusCode := 200, Body := "\x7b\"id\":195\x7d" }, kind := .other,
          err := none })) 195).exec = .returned Product.zero none ∧
    ¬ ((GetProduct (decodingTransport sampleDecode (fun _ _ =>
        { res := some { StatusCode := 200, Body := "\x7b\"id\":195\x7d" }, kind := .json,
          err := none })) 195).exec =
      (GetProduct (decodingTransport sampleDecode (fun _ _ =>
        { res := some { StatusCode := 200, Body := "\x7b\"id\":195\x7d" }, kind := .other,
          err := none })) 195).exec) := by
  decide

/-- C13, amended: when the response to `GetProduct` has a success status and `err` is
nil, `GetProduct` returns a nil error and exactly the value that the result target
holds after the call; over the decoding HTTP layer, on a success response
delivered without error, that value is the body decoded into a zero `Product`
when the status is not 204 and the Content-Type is a JSON or an XML type (an
error of the decoder is returned with the zero `Product`), and the zero `Product`
otherwise; so two calls that receive success responses with identical bodies and
the same kind of Content-Type, both or neither with status 204, end in the same
way, with equal items. -/
theorem GetProduct_returns_decoded (http : Transport Product) (id : Int)
    (decode : ContentKind → String → Product → Product × Option TransportError)
    (wire1 wire2 : Nat → Request → Wire) (id1 id2 : Int) :
    (∀ r, (http 0 { Method := .GET, URL := productPath id, QueryParam := [], Body := none }
          Product.zero).res = some r → r.IsSuccess = true →
        (http 0 { Method := .GET, URL := productPath id, QueryParam := [], Body := none }
          Product.zero).err = none →
        (GetProduct http id).exec = .returned
          (http 0 { Method := .GET, URL := productPath id, QueryParam := [], Body := none }
            Product.zero).result none) ∧
    (∀ r k,
        wire1 0 { Method := .GET, URL := productPath id1, QueryParam := [], Body := none } =
          { res := some r, kind := k, err := none } →
        r.IsSuccess = true →
        (GetProduct (decodingTransport decode wire1) id1).exec =
          if r.StatusCode ≠ 204 ∧ k ≠ .other then
            match (decode k r.Body Product.zero).2 with
            | none => .returned (decode k r.Body Product.zero).1 none
            | some e => .returned Product.zero (some (.other e))
          else .returned Product.zero none) ∧
    (∀ r1 r2 k,
        wire1 0 { Method := .GET, URL := productPath id1, QueryParam := [], Body := none } =
          { res := some r1, kind := k, err := none } →
        wire2 0 { Method := .GET, URL := productPath id2, QueryParam := [], Body := none } =
          { res := some r2, kind := k, err := none } →
        r1.IsSuccess = true → r2.IsSuccess = true → r1.Body = r2.Body →
        (r1.StatusCode = 204 ↔ r2.StatusCode = 204) →
        (GetProduct (decodingTransport decode wire2) id2).exec =
          (GetProduct (decodingTransport decode wire1) id1).exec) := by
  refine ⟨fun r hr hs he => single_success http _ r hr hs he, ?_, ?_⟩
  · intro r k hw hs
    exact GetProduct_decoding decode wire1 id1 r k hw hs
  · intro r1 r2 k h1 h2 hs1 hs2 hb h204
    rw [GetProduct_decoding decode wire1 id1 r1 k h1 hs1,
      GetProduct_decoding decode wire2 id2 r2 k h2 hs2, hb]
    by_cases hc : r1.StatusCode = 204
    · have hc2 := h204.1 hc
      simp [hc, hc2]
    · have hc2 : ¬ r2.StatusCode = 204 := fun h => hc (h204.2 h)
      simp [hc, hc2]

/-- C13, amended, on stubs: a success response returns the result target; two calls,
for different ids and with the status codes 200 and 201, that receive the same
body with a JSON Content-Type return the same item, the one with id 195. -/
theorem GetProduct_returns_decoded_witness :
    (GetProduct (constTransport (some { StatusCode := 200, Body := "" }) none (mkProduct 122))
      123).exec = .returned (mkProduct 122) none ∧
    (GetProduct (decodingTransport sampleDecode (fun _ _ =>
        { res := some { StatusCode := 200, Body := "\x7b\"id\":195\x7d" }, kind := .json,
          err := none })) 123).exec = .returned { Product.zero with Id := 195 } none ∧
    (GetProduct (decodingTransport sampleDecode (fun _ _ =>
        { res := some { StatusCode := 201, Body := "\x7b\"id\":195\x7d" }, kind := .json,
          err := none })) 5).exec =
    (GetProduct (decodingTransport sampleDecode (fun _ _ =>
        { res := some { StatusCode := 200, Body := "\x7b\"id\":195\x7d" }, kind := .json,
          err := none })) 123).exec :=
  have h := GetProduct_returns_decoded
    (constTransport (some { StatusCode := 200, Body := "" }) none (mkProduct 122)) 123
    sampleDecode
    (fun _ _ => { res := some { StatusCode := 200, Body := "\x7b\"id\":195\x7d" },
                  kind := .json, err := none })
    (fun _ _ => { res := some { StatusCode := 201, Body := "\x7b\"id\":195\x7d" },
                  kind := .json, err := none }) 123 5
  ⟨h.1 { StatusCode := 200, Body := "" } rfl (by decide) rfl,
   (h.2.1 { StatusCode := 200, Body := "\x7b\"id\":195\x7d" } .json rfl
      (by decide)).trans (by decide),
   h.2.2 { StatusCode := 200, Body := "\x7b\"id\":195\x7d" }
      { StatusCode := 201, Body := "\x7b\"id\":195\x7d" } .json
      rfl rfl (by decide) (by decide) rfl (by decide)⟩

/-- C14: `UploadProduct`, `UpdateProduct` and `DeleteProduct` each issue exactly one
request, whatever its outcome: POST `/products/add` with the given product as body,
PATCH `/products/<id>` with the given product as body, and DELETE `/products/<id>`
without body, `<id>` being the decimal rendering of the id; on a success status
with a nil `err` each returns the value decoded into the result target, not the
product that was submitted. -/
theorem mutations_single_request (http : Transport Product) (id : Int) (prod : Product) :
    ((UploadProduct http prod).trace.map (fun x => x.req) =
        [{ Method := .POST, URL := "/products/add", QueryParam := [], Body := some prod }] ∧
      (UpdateProduct http id prod).trace.map (fun x => x.req) =
        [{ Method := .PATCH, URL := "/products/" ++ Itoa id, QueryParam := [],
           Body := some prod }] ∧
      (DeleteProduct http id).trace.map (fun x => x.req) =
        [{ Method := .DELETE, URL := "/products/" ++ Itoa id, QueryParam := [],
           Body := none }]) ∧
    ((∀ x ∈ (UploadProduct http prod).trace, ∀ r, x.out.res = some r → r.IsSuccess = true →
        x.out.err = none → (UploadProduct http prod).exec = .returned x.out.result none) ∧
      (∀ x ∈ (UpdateProduct http id prod).trace, ∀ r, x.out.res = some r →
        r.IsSuccess = true → x.out.err = none →
        (UpdateProduct http id prod).exec = .returned x.out.result none) ∧
      (∀ x ∈ (DeleteProduct http id).trace, ∀ r, x.out.res = some r → r.IsSuccess = true →
        x.out.err = none → (DeleteProduct http id).exec = .returned x.out.result none)) := by
  have key : ∀ rq : Request, ∀ x ∈ (single http rq).trace, ∀ r, x.out.res = some r →
      r.IsSuccess = true → x.out.err = none →
      (single http rq).exec = .returned x.out.result none := by
    intro rq x hx r hr hs he
    rw [single_trace, List.mem_singleton] at hx
    subst hx
    exact single_success http rq r hr hs he
  refine ⟨⟨?_, ?_, ?_⟩, key _, key _, key _⟩
  · unfold UploadProduct
    rw [single_trace]
    rfl
  · unfold UpdateProduct
    rw [single_trace]
    rfl
  · unfold DeleteProduct
    rw [single_trace]
    rfl

/-- C14 on a server that answers 201 and assigns the identifier 195: the product
returned is the one decoded, not the one submitted. -/
theorem mutations_single_request_witness :
    (UploadProduct (constTransport (some { StatusCode := 201, Body := "" }) none
      (mkProduct 194)) Product.zero).exec = .returned (mkProduct 194) none ∧
    (UpdateProduct (constTransport (some { StatusCode := 200, Body := "" }) none
      (mkProduct 194)) 195 Product.zero).exec = .returned (mkProduct 194) none ∧
    (DeleteProduct (constTransport (some { StatusCode := 200, Body := "" }) none
      (mkProduct 194)) 195).exec = .returned (mkProduct 194) none ∧
    (UpdateProduct (constTransport (some { StatusCode := 200, Body := "" }) none
      (mkProduct 194)) 195 Product.zero).trace.map (fun x => x.req) =
      [{ Method := .PATCH, URL := "/products/195", QueryParam := [],
         Body := some Product.zero }] ∧
    mkProduct 194 ≠ Product.zero :=
  have h := mutations_single_request
    (constTransport (some { StatusCode := 201, Body := "" }) none (mkProduct 194)) 195
    Product.zero
  have h2 := mutations_single_request
    (constTransport (some { StatusCode := 200, Body := "" }) none (mkProduct 194)) 195
    Product.zero
  ⟨h.2.1 _ (List.mem_singleton.2 rfl) { StatusCode := 201, Body := "" } rfl (by decide) rfl,
   h2.2.2.1 _ (List.mem_singleton.2 rfl) { StatusCode := 200, Body := "" } rfl (by decide) rfl,
   h2.2.2.2 _ (List.mem_singleton.2 rfl) { StatusCode := 200, Body := "" } rfl (by decide) rfl,
   h2.1.2.1.trans (by decide), by decide⟩

/-! ## JSON keys: facts and the claim -/

/-- The key `deletedOn` is written for every product: `omitempty` never leaves out a
struct value such as a `time.Time`. -/
theorem deletedOn_always_present (p : Product) : "deletedOn" ∈ jsonKeys p := by
  cases h : p.IsDeleted <;>
    simp [jsonKeys, Product.jsonFields, isEmptyValue, List.filter, h]

/-- The key `isDeleted` is written exactly when `IsDeleted` is true. -/
theorem isDeleted_present_iff (p : Product) : "isDeleted" ∈ jsonKeys p ↔ p.IsDeleted = true := by
  cases h : p.IsDeleted <;>
    simp [jsonKeys, Product.jsonFields, isEmptyValue, List.filter, h]

/-- The body of the request of `UploadProduct` and of `UpdateProduct` is the product
given by the caller. -/
theorem mutation_bodyKeys (http : Transport Product) (id : Int) (p : Product) :
    (UploadProduct http p).trace.map (fun x => x.req.bodyKeys) = [some (jsonKeys p)] ∧
    (UpdateProduct http id p).trace.map (fun x => x.req.bodyKeys) = [some (jsonKeys p)] := by
  constructor
  · unfold UploadProduct
    rw [single_trace]
    rfl
  · unfold UpdateProduct
    rw [single_trace]
    rfl

/-- C16, at a product whose `IsDeleted` is false and whose `DeletedOn` is the zero
time: the body that `UploadProduct` and `UpdateProduct` send has no key `isDeleted`
but does have the key `deletedOn`, which the tag `omitempty` was meant to leave out. -/
theorem deletedOn_sent_for_zero_time :
    Product.zero.IsDeleted = false ∧ Product.zero.DeletedOn = { nanos := 0 } ∧
    (UploadProduct (constTransport (some { StatusCode := 201, Body := "" }) none Product.zero)
      Product.zero).trace.map (fun x => x.req.bodyKeys) =
      [some ["id", "title", "description", "category", "price", "discountPercentage",
        "rating", "stock", "tags", "brand", "sku", "weight", "dimensions",
        "warrantyInformation", "shippingInformation", "availabilityStatus", "reviews",
        "returnPolicy", "minimumOrderQuantity", "meta", "thumbnail", "images",
        "deletedOn"]] ∧
    (UpdateProduct (constTransport (some { StatusCode := 200, Body := "" }) none Product.zero)
      1 Product.zero).trace.map (fun x => x.req.bodyKeys) =
      (UploadProduct (constTransport (some { StatusCode := 201, Body := "" }) none
        Product.zero) Product.zero).trace.map (fun x => x.req.bodyKeys) ∧
    "deletedOn" ∈ jsonKeys Product.zero ∧ "isDeleted" ∉ jsonKeys Product.zero := by
  decide

/-! ## The first request: the claim -/

/-- C17, as stated, fails: the first request of `GetProducts` carries no query
parameter, neither `limit=30` nor `skip=0`; those come with the second request. -/
theorem GetProducts_first_request_counterexample :
    (GetProducts (pagedServer (catalogOf 74)) 5).trace.head?.map (fun x => x.req) =
      some { Method := .GET, URL := "/products", QueryParam := [], Body := none } ∧
    ¬ ((GetProducts (pagedServer (catalogOf 74)) 5).trace.head?.map
        (fun x => x.req.QueryParam) = some [("limit", "30"), ("skip", "0")]) ∧
    (GetProducts (pagedServer (catalogOf 74)) 5).trace[1]?.map (fun x => x.req.QueryParam) =
      some [("limit", "30"), ("skip", "0")] := by
  decide

/-- C17, amended: the first request that `GetProducts` issues is a GET of `/products`
without any query parameter; when it is answered without error (and the budget
allows one loop iteration) the second request is the one for the first page with
the nominal page size, `limit=30` and `skip=0`. -/
theorem GetProducts_first_request (http : Transport ProductResponse) (fuel : Nat) :
    (GetProducts http fuel).trace[0]? =
      some { req := { Method := .GET, URL := "/products", QueryParam := [], Body := none },
             out := http 0 firstRequest ProductResponse.zero } ∧
    ((http 0 firstRequest ProductResponse.zero).ok = true → 0 < fuel →
      (GetProducts http fuel).trace[1]?.map (fun x => x.req) =
        some { Method := .GET, URL := "/products",
               QueryParam := [("limit", "30"), ("skip", "0")], Body := none }) := by
  rw [GetProducts_eq]
  refine ⟨?_, fun hok hf => ?_⟩
  · simp only [Run.after, List.getElem?_cons_zero]
    rfl
  · obtain ⟨f, rfl⟩ : ∃ f, fuel = f + 1 := ⟨fuel - 1, by omega⟩
    rw [checked_ok _ _ _ hok, loop_step]
    simp only [Run.after, List.getElem?_cons_succ, List.getElem?_cons_zero, Option.map_some']
    rfl

/-- C17, amended, on the catalog of 74 products. -/
theorem GetProducts_first_request_witness :
    (GetProducts (pagedServer (catalogOf 74)) 5).trace[1]?.map (fun x => x.req) =
      some { Method := .GET, URL := "/products",
             QueryParam := [("limit", "30"), ("skip", "0")], Body := none } :=
  (GetProducts_first_request (pagedServer (catalogOf 74)) 5).2 (by decide) (by decide)

/-! ## The data sources: the claims -/

theorem int64OfUint_of_lt (u : Uint) (h : u.val < 2 ^ 63) : int64OfUint u = (u.val : Int) := by
  unfold int64OfUint
  exact wrapInt_of_range _ (by positivity) (by exact_mod_cast h)

/-- C18, as stated, fails: a product whose `stock` is `2 ^ 64 - 1` is stored with
`stock = -1`. -/
theorem ProductDataSource_Read_counterexample :
    (GetProduct (constTransport (some { StatusCode := 200, Body := "" }) none
      { Product.zero with Id := 123, Stock := 18446744073709551615 }) 123).exec =
      .returned { Product.zero with Id := 123, Stock := 18446744073709551615 } none ∧
    (∃ s, ProductDataSource.Read sampleTimeString
        (constTransport (some { StatusCode := 200, Body := "" }) none
          { Product.zero with Id := 123, Stock := 18446744073709551615 }) 123 = .state s ∧
      s.Stock = -1 ∧
      s.Stock ≠ (({ Product.zero with Id := 123, Stock := 18446744073709551615 } :
        Product).Stock.val : Int)) := by
  refine ⟨by decide, _, rfl, ?_, ?_⟩ <;> decide

/-- C18, amended: for every product `p` that `GetProduct` returns for the configured
id, `Read` of the single-product data source stores a state in which every
attribute equals the corresponding field of `p`, `stock` and
`minimum_order_quantity` being the field converted by `int64`, equal to the field
when it is below `2 ^ 63`; the reviews keep their number and order, with the
reviewer name and email of each. -/
theorem ProductDataSource_Read_state (timeString : Time → String) (http : Transport Product)
    (id : Int) (p : Product) (h : (GetProduct http id).exec = .returned p none) :
    ∃ s, ProductDataSource.Read timeString http id = .state s ∧
      s.Id = p.Id ∧ s.Title = p.Title ∧ s.Description = p.Description ∧
      s.Category = p.Category ∧ s.Price = p.Price ∧
      s.DiscountPercentage = p.DiscountPercentage ∧ s.Rating = p.Rating ∧
      s.Stock = int64OfUint p.Stock ∧ (p.Stock.val < 2 ^ 63 → s.Stock = (p.Stock.val : Int)) ∧
      s.Tags = p.Tags ∧ s.Brand = p.Brand ∧ s.Sku = p.Sku ∧ s.Weight = p.Weight ∧
      s.Dimensions.Width = p.Dimensions.Width ∧ s.Dimensions.Height = p.Dimensions.Height ∧
      s.Dimensions.Depth = p.Dimensions.Depth ∧
      s.WarrantyInfo = p.WarrantyInfo ∧ s.ShippingInfo = p.ShippingInfo ∧
      s.AvailabilityStatus = p.AvailabilityStatus ∧ s.ReturnPolicy = p.ReturnPolicy ∧
      s.MinimumOrderQuantity = int64OfUint p.MinimumOrderQuantity ∧
      (p.MinimumOrderQuantity.val < 2 ^ 63 →
        s.MinimumOrderQuantity = (p.MinimumOrderQuantity.val : Int)) ∧
      s.Thumbnail = p.Thumbnail ∧ s.Images = p.Images ∧
      s.Reviews.length = p.Reviews.length ∧
      s.Reviews.map (fun r => r.ReviewerName) = p.Reviews.map (fun r => r.ReviewerName) ∧
      s.Reviews.map (fun r => r.ReviewerEmail) = p.Reviews.map (fun r => r.ReviewerEmail) ∧
      s.Reviews.map (fun r => r.Comment) = p.Reviews.map (fun r => r.Comment) ∧
      s.Reviews.map (fun r => r.Rating) = p.Reviews.map (fun r => (r.Rating.val : Int)) := by
  refine ⟨toProductDataSourceModel timeString p, ?_, rfl, rfl, rfl, rfl, rfl, rfl, rfl, rfl,
    fun hlt => int64OfUint_of_lt _ hlt, rfl, rfl, rfl, rfl, rfl, rfl, rfl, rfl, rfl, rfl, rfl,
    rfl, fun hlt => int64OfUint_of_lt _ hlt, rfl, rfl, ?_, ?_, ?_, ?_, ?_⟩
  · simp only [ProductDataSource.Read, h]
  · simp [toProductDataSourceModel]
  · simp [toProductDataSourceModel, toReviewModel]
  · simp [toProductDataSourceModel, toReviewModel]
  · simp [toProductDataSourceModel, toReviewModel]
  · simp [toProductDataSourceModel, toReviewModel, int64OfUint8]

/-- C18, amended, for the id 123: the state has the title `iPhone 13 Pro`, the sku
`YGQKHPGK`, and the first review is by `Aria Roberts`. -/
theorem ProductDataSource_Read_state_witness :
    ∃ s, ProductDataSource.Read sampleTimeString
        (constTransport (some { StatusCode := 200, Body := "" }) none sampleProduct) 123 =
        .state s ∧
      s.Id = 123 ∧ s.Title = "iPhone 13 Pro" ∧ s.Sku = "YGQKHPGK" ∧ s.Stock = 56 ∧
      s.Reviews.map (fun r => r.ReviewerName) = ["Aria Roberts"] ∧
      s.Reviews.map (fun r => r.ReviewerEmail) = ["aria.roberts@x.dummyjson.com"] := by
  obtain ⟨s, hread, hId, hTitle, -, -, -, -, -, -, hStock, -, -, hSku, -, -, -, -, -, -, -, -,
      -, -, -, -, -, hNames, hEmails, -, -⟩ :=
    ProductDataSource_Read_state sampleTimeString
      (constTransport (some { StatusCode := 200, Body := "" }) none sampleProduct) 123
      sampleProduct (by decide)
  exact ⟨s, hread, hId, hTitle, hSku, (hStock (by decide)).trans (by decide), hNames, hEmails⟩

/-- The entry that the list data source builds for a product carries the price in
`discount_percentage` and the shipping information in `thumbnail`. -/
theorem toProductModel_copies (timeString : Time → String) (p : Product) :
    (toProductModel timeString p).DiscountPercentage = p.Price ∧
    (toProductModel timeString p).Thumbnail = p.ShippingInfo :=
  ⟨rfl, rfl⟩

/-- C19, at a catalog whose only product has price 549.99 and discount percentage
9.5: the entry of the list data source has `discount_percentage` equal to the
price, not to the discount percentage. -/
theorem ProductsDataSource_discount_percentage :
    (GetProducts (pagedServer [sampleProduct]) 3).exec = .returned [sampleProduct] none ∧
    (ProductsDataSource.Read sampleTimeString (pagedServer [sampleProduct]) 3 =
      .state [toProductModel sampleTimeString sampleProduct]) ∧
    (toProductModel sampleTimeString sampleProduct).DiscountPercentage = sampleProduct.Price ∧
    (toProductModel sampleTimeString sampleProduct).DiscountPercentage
      = { bits := 4648048979020265554 } ∧
    sampleProduct.DiscountPercentage = { bits := 4621537642612260864 } ∧
    (toProductModel sampleTimeString sampleProduct).DiscountPercentage
      ≠ sampleProduct.DiscountPercentage := by
  decide

/-- C20, at a catalog whose only product has a thumbnail URL and the shipping
information `Ships in 1 month`: the entry of the list data source has `thumbnail`
equal to the shipping information, not to the thumbnail. -/
theorem ProductsDataSource_thumbnail :
    (GetProducts (pagedServer [sampleProduct]) 3).exec = .returned [sampleProduct] none ∧
    (ProductsDataSource.Read sampleTimeString (pagedServer [sampleProduct]) 3 =
      .state [toProductModel sampleTimeString sampleProduct]) ∧
    (toProductModel sampleTimeString sampleProduct).Thumbnail = "Ships in 1 month" ∧
    sampleProduct.Thumbnail =
      "https://cdn.dummyjson.com/products/images/smartphones/thumbnail.png" ∧
    (toProductModel sampleTimeString sampleProduct).Thumbnail ≠ sampleProduct.Thumbnail := by
  decide

/-! ## Type names: the claim -/

/-- C21: for every provider type name `t` the single-product data source and the
resource report `t` followed by `_product`, and the list data source reports `t`
followed by `_products`; with the type name of the provider, `dummy`, these are
`dummy_product` and `dummy_products`, the types of the data blocks that the
acceptance tests declare. -/
theorem Metadata_type_names (t : String) :
    ProductDataSource.Metadata t = t ++ "_product" ∧
    ProductResource.Metadata t = t ++ "_product" ∧
    ProductsDataSource.Metadata t = t ++ "_products" ∧
    ProductDataSource.Metadata DummyProvider.Metadata = "dummy_product" ∧
    ProductResource.Metadata DummyProvider.Metadata = "dummy_product" ∧
    ProductsDataSource.Metadata DummyProvider.Metadata = "dummy_products" ∧
    declaresData testAccSingleProductDataSourceConfig
      (ProductDataSource.Metadata DummyProvider.Metadata) ∧
    declaresData testAccAllProductsDataSourceConfig
      (ProductsDataSource.Metadata DummyProvider.Metadata) := by
  refine ⟨rfl, rfl, rfl, by decide, by decide, by decide, ?_, ?_⟩
  · exact ⟨"\n".data, "\"test\" \x7b\n\tid = 123 \n\x7d\n".data, by decide⟩
  · exact ⟨"\n".data, "\"test\" \x7b\x7d\n".data, by decide⟩

/-! ## Absent responses and error precedence: the claims -/

/-- C22, at an outcome of the HTTP layer that has an error and no response object:
each of the five operations panics on inspecting the absent response instead of
returning the error. -/
theorem nil_response_panics :
    (GetProducts (constTransport none (some { text := "parse: missing ] in host" })
      ProductResponse.zero) 3).exec = .panicked ∧
    (GetProduct (constTransport none (some { text := "parse: missing ] in host" })
      Product.zero) 1).exec = .panicked ∧
    (UploadProduct (constTransport none (some { text := "json: unsupported value: NaN" })
      Product.zero) sampleProduct).exec = .panicked ∧
    (UpdateProduct (constTransport none (some { text := "parse: missing ] in host" })
      Product.zero) 1 sampleProduct).exec = .panicked ∧
    (DeleteProduct (constTransport none (some { text := "parse: missing ] in host" })
      Product.zero) 1).exec = .panicked ∧
    (GetProducts (scripted
        [{ res := some { StatusCode := 200, Body := "" }, err := none,
           result := { Products := catalogOf 30, Total := 74, Skip := 0, Limit := 30 } }]
        { res := none, err := some { text := "parse: missing ] in host" },
          result := ProductResponse.zero }) 3).exec = .panicked := by
  decide

/-- Only an `err` that comes with a response without error status makes an
operation end with that `err`. -/
theorem abortWith_other {α ρ : Type} (zero v : ρ) (o : Outcome α) (e : TransportError)
    (h : abortWith zero o = .returned v (some (.other e))) :
    ∃ r, o.res = some r ∧ r.IsError = false ∧ o.err = some e := by
  unfold abortWith at h
  cases hr : o.res with
  | none => simp [hr] at h
  | some r =>
    by_cases hE : r.IsError = true
    · simp [hr, hE] at h
    · cases he : o.err with
      | none => simp [hr, hE, he] at h
      | some e2 =>
        simp [hr, hE, he] at h
        exact ⟨r, rfl, by simpa using hE, by rw [h.2]⟩

theorem shaped_statusWins {α ρ : Type} (R : Run α ρ) (zero : ρ) (hS : Shaped R zero) :
    StatusErrorWins R zero := by
  intro x hx r e hr hs _
  exact shaped_remoteError R zero hS x hx r hr ((isError_iff r).2 hs)

theorem shaped_errOnly {α ρ : Type} (R : Run α ρ) (zero : ρ) (hS : Shaped R zero) :
    ErrOnlyWithoutErrorStatus R := by
  intro v e h
  rcases hS with ⟨_, hne⟩ | ⟨T0, y, hT, _, _, hex⟩
  · exact absurd h (hne v _)
  · rw [hex] at h
    obtain ⟨r, hr, hE, he⟩ := abortWith_other _ _ _ _ h
    refine ⟨y, by rw [hT]; simp, r, hr, ?_, he⟩
    have := (isError_iff r).not.1 (by simp [hE])
    omega

/-- C27: in every operation, a response with an error status (above 399) that comes
together with a non-nil `err` makes the operation return the `DummyError` with the
body of the response, the `err` being dropped; and an `err` of the HTTP layer is
returned only when it came with a response whose status is at most 399. -/
theorem error_precedence (list : Transport ProductResponse) (fuel : Nat)
    (http : Transport Product) (id : Int) (prod : Product) :
    (StatusErrorWins (GetProducts list fuel) [] ∧
      StatusErrorWins (GetProduct http id) Product.zero ∧
      StatusErrorWins (UploadProduct http prod) Product.zero ∧
      StatusErrorWins (UpdateProduct http id prod) Product.zero ∧
      StatusErrorWins (DeleteProduct http id) Product.zero) ∧
    (ErrOnlyWithoutErrorStatus (GetProducts list fuel) ∧
      ErrOnlyWithoutErrorStatus (GetProduct http id) ∧
      ErrOnlyWithoutErrorStatus (UploadProduct http prod) ∧
      ErrOnlyWithoutErrorStatus (UpdateProduct http id prod) ∧
      ErrOnlyWithoutErrorStatus (DeleteProduct http id)) :=
  ⟨⟨shaped_statusWins _ _ (GetProducts_shaped list fuel),
    shaped_statusWins _ _ (single_shaped http _), shaped_statusWins _ _ (single_shaped http _),
    shaped_statusWins _ _ (single_shaped http _), shaped_statusWins _ _ (single_shaped http _)⟩,
   ⟨shaped_errOnly _ _ (GetProducts_shaped list fuel),
    shaped_errOnly _ _ (single_shaped http _), shaped_errOnly _ _ (single_shaped http _),
    shaped_errOnly _ _ (single_shaped http _), shaped_errOnly _ _ (single_shaped http _)⟩⟩

/-- C27 on a response with status 502 whose body could not be read to the end: the
operations return the `DummyError` with what was read, not the read error. -/
theorem error_precedence_witness :
    (GetProduct (constTransport (some { StatusCode := 502, Body := "Bad Gate" })
        (some { text := "unexpected EOF" }) Product.zero) 7).exec =
      .returned Product.zero (some (.dummy { Message := "Bad Gate" })) ∧
    (GetProducts (constTransport (some { StatusCode := 502, Body := "Bad Gate" })
        (some { text := "unexpected EOF" }) ProductResponse.zero) 3).exec =
      .returned [] (some (.dummy { Message := "Bad Gate" })) :=
  have h := error_precedence
    (constTransport (some { StatusCode := 502, Body := "Bad Gate" })
      (some { text := "unexpected EOF" }) ProductResponse.zero) 3
    (constTransport (some { StatusCode := 502, Body := "Bad Gate" })
      (some { text := "unexpected EOF" }) Product.zero) 7 Product.zero
  ⟨h.1.2.1 _ (List.mem_singleton.2 rfl) { StatusCode := 502, Body := "Bad Gate" }
      { text := "unexpected EOF" } rfl (by decide) rfl,
   h.1.1 _ (List.mem_singleton.2 rfl) { StatusCode := 502, Body := "Bad Gate" }
      { text := "unexpected EOF" } rfl (by decide) rfl⟩

/-! ## The resource handlers: the claims -/

/-- C25: the `Update` handler of the resource has the client perform no exchange,
whatever the client would answer, adds no diagnostic of its own, and writes
exactly the planned values as the new state. -/
theorem ProductResource_Update_no_call (http : Transport Product) (plan : ProductResourceModel) :
    (ProductResource.Update http plan).trace = [] ∧
    (ProductResource.Update http plan).state = some plan ∧
    (ProductResource.Update http plan).diagnostics = [] ∧
    (∀ other : Transport Product,
      (ProductResource.Update other plan).state = (ProductResource.Update http plan).state) :=
  ⟨rfl, rfl, rfl, fun _ => rfl⟩

/-- C29: the `Delete` handler of the resource has the client perform no exchange,
whatever the prior state and whatever the client would answer, and adds no
diagnostic of its own. -/
theorem ProductResource_Delete_no_call (http : Transport Product)
    (prior : ProductResourceModel) :
    (ProductResource.Delete http prior).trace = [] ∧
    (ProductResource.Delete http prior).diagnostics = [] ∧
    (ProductResource.Delete http prior).state = none :=
  ⟨rfl, rfl, rfl⟩

/-! ## Termination: facts and the claim -/

theorem abortWith_ne_running {α ρ : Type} (zero : ρ) (o : Outcome α) :
    abortWith zero o ≠ .running := by
  unfold abortWith
  cases hr : o.res with
  | none => simp
  | some r => by_cases hE : r.IsError = true <;> simp [hE]

/-- The loop is still running when its fuel is used up exactly when every exchange
was ok and returned the limit 30; it then performed one exchange per unit of fuel. -/
theorem loop_running_iff (http : Transport ProductResponse) :
    ∀ (fuel n : Nat) (skip : Int) (p : ProductResponse) (ps : List Product),
      ((GetProductsLoop http fuel n skip 30 p ps).exec = .running ↔
        ∀ x ∈ (GetProductsLoop http fuel n skip 30 p ps).trace,
          x.out.ok = true ∧ x.out.result.Limit = 30) ∧
      ((GetProductsLoop http fuel n skip 30 p ps).exec = .running →
        (GetProductsLoop http fuel n skip 30 p ps).trace.length = fuel) := by
  intro fuel
  induction fuel with
  | zero => intro n skip p ps; simp [GetProductsLoop]
  | succ fuel ih =>
    intro n skip p ps
    rw [loop_step]
    by_cases hok : (http n (pageRequest 30 skip) p).ok = true
    · rw [checked_ok _ _ _ hok]
      by_cases hl : intOfUint (http n (pageRequest 30 skip) p).result.Limit = 30
      · have hL := (intOfUint_eq_thirty _).1 hl
        rw [hl]
        obtain ⟨h1, h2⟩ := ih (n + 1) (wrapInt (skip + 30)) (http n (pageRequest 30 skip) p).result
          (ps ++ (http n (pageRequest 30 skip) p).result.Products)
        simp only [Run.after, List.mem_cons, forall_eq_or_imp, hok, hL, and_self, true_and,
          List.length_cons]
        exact ⟨h1, fun h => by rw [h2 h]⟩
      · have hL : (http n (pageRequest 30 skip) p).result.Limit ≠ 30 :=
          fun h => hl ((intOfUint_eq_thirty _).2 h)
        rw [loop_stop _ _ _ _ _ _ _ hl]
        simp [Run.after, hL]
    · have hok2 : (http n (pageRequest 30 skip) p).ok = false := by simpa using hok
      rw [checked_not_ok _ _ _ hok2]
      simp [Run.after, hok2, abortWith_ne_running]

/-- A call of the loop that has ended gives the same execution with more fuel. -/
theorem loop_mono (http : Transport ProductResponse) :
    ∀ (fuel n : Nat) (skip limit : Int) (p : ProductResponse) (ps : List Product),
      (GetProductsLoop http fuel n skip limit p ps).exec ≠ .running →
      GetProductsLoop http (fuel + 1) n skip limit p ps =
        GetProductsLoop http fuel n skip limit p ps := by
  intro fuel
  induction fuel with
  | zero =>
    intro n skip limit p ps h
    by_cases hl : limit = 30
    · simp [GetProductsLoop, hl] at h
    · rw [loop_stop _ _ _ _ _ _ _ hl, loop_stop _ _ _ _ _ _ _ hl]
  | succ fuel ih =>
    intro n skip limit p ps h
    by_cases hl : limit = 30
    · subst hl
      rw [loop_step] at h
      rw [loop_step http (fuel + 1), loop_step http fuel]
      by_cases hok : (http n (pageRequest 30 skip) p).ok = true
      · rw [checked_ok _ _ _ hok] at h ⊢
        rw [checked_ok _ _ _ hok]
        simp only [Run.after] at h
        rw [ih _ _ _ _ _ h]
      · have hok2 : (http n (pageRequest 30 skip) p).ok = false := by simpa using hok
        rw [checked_not_ok _ _ _ hok2, checked_not_ok _ _ _ hok2]
    · rw [loop_stop _ _ _ _ _ _ _ hl, loop_stop _ _ _ _ _ _ _ hl]

/-- A call of `GetProducts` that has ended gives the same execution with any larger
budget. -/
theorem GetProducts_mono (http : Transport ProductResponse) (fuel : Nat)
    (h : (GetProducts http fuel).exec ≠ .running) :
    ∀ more, GetProducts http (fuel + more) = GetProducts http fuel := by
  have step : ∀ f, (GetProducts http f).exec ≠ .running →
      GetProducts http (f + 1) = GetProducts http f := by
    intro f hf
    rw [GetProducts_eq] at hf
    rw [GetProducts_eq, GetProducts_eq]
    by_cases hok : (http 0 firstRequest ProductResponse.zero).ok = true
    · rw [checked_ok _ _ _ hok] at hf ⊢
      rw [checked_ok _ _ _ hok]
      simp only [Run.after] at hf
      rw [loop_mono _ _ _ _ _ _ _ hf]
    · have hok2 : (http 0 firstRequest ProductResponse.zero).ok = false := by simpa using hok
      rw [checked_not_ok _ _ _ hok2, checked_not_ok _ _ _ hok2]
  intro more
  induction more with
  | zero => rfl
  | succ m ihm =>
    rw [← Nat.add_assoc, step (fuel + m) (by rw [ihm]; exact h), ihm]

/-- The characterisation of the executions of `GetProducts` that are still running. -/
theorem GetProducts_running_iff (http : Transport ProductResponse) (fuel : Nat) :
    ((GetProducts http fuel).exec = .running ↔
      (∀ x ∈ (GetProducts http fuel).trace, x.out.ok = true) ∧
      ∀ x ∈ (GetProducts http fuel).trace.tail, x.out.result.Limit = 30) ∧
    ((GetProducts http fuel).exec = .running →
      (GetProducts http fuel).trace.length = fuel + 1) := by
  rw [GetProducts_eq]
  by_cases hok : (http 0 firstRequest ProductResponse.zero).ok = true
  · rw [checked_ok _ _ _ hok]
    obtain ⟨h1, h2⟩ := loop_running_iff http fuel 1 0
      (http 0 firstRequest ProductResponse.zero).result []
    simp only [Run.after, List.mem_cons, forall_eq_or_imp, hok, true_and, List.tail_cons,
      List.length_cons]
    refine ⟨?_, fun h => by rw [h2 h]⟩
    rw [h1]
    exact ⟨fun h => ⟨fun x hx => (h x hx).1, fun x hx => (h x hx).2⟩,
      fun h x hx => ⟨h.1 x hx, h.2 x hx⟩⟩
  · have hok2 : (http 0 firstRequest ProductResponse.zero).ok = false := by simpa using hok
    rw [checked_not_ok _ _ _ hok2]
    simp [Run.after, hok2, abortWith_ne_running]

/-- When every request is answered without error and with the limit 30, `GetProducts`
is still running after any number of loop iterations. -/
theorem GetProducts_never_returns (http : Transport ProductResponse)
    (h : ∀ n rq prev, (http n rq prev).ok = true ∧ (http n rq prev).result.Limit = 30)
    (fuel : Nat) :
    (GetProducts http fuel).exec = .running ∧ (GetProducts http fuel).trace.length = fuel + 1 := by
  have key : ∀ (f n : Nat) (skip : Int) (p : ProductResponse) (ps : List Product),
      (GetProductsLoop http f n skip 30 p ps).exec = .running := by
    intro f
    induction f with
    | zero => intro n skip p ps; simp [GetProductsLoop]
    | succ f ih =>
      intro n skip p ps
      rw [loop_step, checked_ok _ _ _ (h _ _ _).1, (intOfUint_eq_thirty _).2 (h _ _ _).2]
      exact ih _ _ _ _
  have hrun : (GetProducts http fuel).exec = .running := by
    rw [GetProducts_eq, checked_ok _ _ _ (h _ _ _).1]
    exact key _ _ _ _ _
  exact ⟨hrun, (GetProducts_running_iff http fuel).2 hrun⟩

/-- C23, as stated, fails: on a server that answers every request with a full page
and `limit = 30`, no budget of loop iterations makes `GetProducts` return. -/
theorem GetProducts_termination_counterexample :
    ¬ ∃ fuel, (GetProducts alwaysThirty fuel).exec ≠ .running := by
  rintro ⟨fuel, h⟩
  exact h (GetProducts_never_returns alwaysThirty (fun _ _ _ => ⟨rfl, rfl⟩) fuel).1

/-- C23, amended: after `fuel` loop iterations `GetProducts` is still issuing
requests exactly when every exchange so far came without error and every
paginated response reported the limit 30; otherwise it has ended, and a larger
budget changes nothing. When every request is answered without error and with
the limit 30 the call never ends: after `f` loop iterations it has issued `f + 1`
requests and goes on. -/
theorem GetProducts_termination (http : Transport ProductResponse) (fuel : Nat) :
    ((GetProducts http fuel).exec = .running ↔
      (∀ x ∈ (GetProducts http fuel).trace, x.out.ok = true) ∧
      ∀ x ∈ (GetProducts http fuel).trace.tail, x.out.result.Limit = 30) ∧
    ((GetProducts http fuel).exec ≠ .running →
      ∀ more, GetProducts http (fuel + more) = GetProducts http fuel) ∧
    ((∀ n rq prev, (http n rq prev).ok = true ∧ (http n rq prev).result.Limit = 30) →
      ∀ f, (GetProducts http f).exec = .running ∧ (GetProducts http f).trace.length = f + 1) :=
  ⟨(GetProducts_running_iff http fuel).1, GetProducts_mono http fuel,
   fun h f => GetProducts_never_returns http h f⟩

/-- C23, amended, on two servers: the catalog of 74 products is returned within 3
loop iterations and a budget of 1000 gives the same execution; a server that always
reports `limit = 30` has the call issue 1001 requests in 1000 iterations without
an end. -/
theorem GetProducts_termination_witness :
    GetProducts (pagedServer (catalogOf 74)) (3 + 997) =
      GetProducts (pagedServer (catalogOf 74)) 3 ∧
    (GetProducts alwaysThirty 1000).exec = .running ∧
    (GetProducts alwaysThirty 1000).trace.length = 1001 :=
  ⟨(GetProducts_termination (pagedServer (catalogOf 74)) 3).2.1 (by decide) 997,
   (GetProducts_termination alwaysThirty 0).2.2 (fun _ _ _ => ⟨rfl, rfl⟩) 1000⟩

/-! ## Runs compared: facts and the claims -/

theorem ok_congr {α : Type} (o1 o2 : Outcome α) (hr : o1.res = o2.res) (he : o1.err = o2.err) :
    o1.ok = o2.ok := by
  simp [Outcome.ok, hr, he]

theorem abortWith_congr {α ρ : Type} (zero : ρ) (o1 o2 : Outcome α) (hr : o1.res = o2.res)
    (he : o1.err = o2.err) : abortWith zero o1 = abortWith zero o2 := by
  simp [abortWith, hr, he]

/-- Two transports whose outcomes agree up to `total` and `skip` make the loop issue
the same requests and end in the same way. -/
theorem loop_agree (http1 http2 : Transport ProductResponse)
    (h : ∀ n rq p1 p2, p1.Products = p2.Products → p1.Limit = p2.Limit →
      Agree (http1 n rq p1) (http2 n rq p2)) :
    ∀ (fuel n : Nat) (skip limit : Int) (p1 p2 : ProductResponse) (ps : List Product),
      p1.Products = p2.Products → p1.Limit = p2.Limit →
      (GetProductsLoop http1 fuel n skip limit p1 ps).exec =
        (GetProductsLoop http2 fuel n skip limit p2 ps).exec ∧
      (GetProductsLoop http1 fuel n skip limit p1 ps).trace.map (fun x => x.req) =
        (GetProductsLoop http2 fuel n skip limit p2 ps).trace.map (fun x => x.req) := by
  intro fuel
  induction fuel with
  | zero =>
    intro n skip limit p1 p2 ps _ _
    by_cases hl : limit = 30 <;> simp [GetProductsLoop, hl]
  | succ fuel ih =>
    intro n skip limit p1 p2 ps hP hL
    by_cases hl : limit = 30
    · subst hl
      obtain ⟨hres, herr, hP2, hL2⟩ := h n (pageRequest 30 skip) p1 p2 hP hL
      have hokeq := ok_congr _ _ hres herr
      rw [loop_step, loop_step]
      by_cases hok : (http1 n (pageRequest 30 skip) p1).ok = true
      · have hok' : (http2 n (pageRequest 30 skip) p2).ok = true := by rw [← hokeq]; exact hok
        rw [checked_ok _ _ _ hok, checked_ok _ _ _ hok', hL2, hP2]
        obtain ⟨h1, h2⟩ := ih (n + 1)
          (wrapInt (skip + intOfUint (http2 n (pageRequest 30 skip) p2).result.Limit))
          (intOfUint (http2 n (pageRequest 30 skip) p2).result.Limit)
          (http1 n (pageRequest 30 skip) p1).result (http2 n (pageRequest 30 skip) p2).result
          (ps ++ (http2 n (pageRequest 30 skip) p2).result.Products) hP2 hL2
        simp only [Run.after, List.map_cons, h1, h2, and_self]
      · have hok2 : (http1 n (pageRequest 30 skip) p1).ok = false := by simpa using hok
        have hok2' : (http2 n (pageRequest 30 skip) p2).ok = false := by rw [← hokeq]; exact hok2
        rw [checked_not_ok _ _ _ hok2, checked_not_ok _ _ _ hok2']
        simp only [Run.after, List.map_cons, List.map_nil, and_true]
        exact abortWith_congr _ _ _ hres herr
    · rw [loop_stop _ _ _ _ _ _ _ hl, loop_stop _ _ _ _ _ _ _ hl]
      exact ⟨rfl, rfl⟩

/-- C24: `GetProducts` consults neither `total` nor `skip`: two servers whose
corresponding outcomes agree on the response, the error, the products and the
limit, whatever `total` and `skip` they report, make it issue the same sequence of
requests and end in the same way, with the same items. -/
theorem GetProducts_ignores_total_skip (http1 http2 : Transport ProductResponse)
    (h : ∀ n rq p1 p2, p1.Products = p2.Products → p1.Limit = p2.Limit →
      Agree (http1 n rq p1) (http2 n rq p2)) (fuel : Nat) :
    (GetProducts http1 fuel).exec = (GetProducts http2 fuel).exec ∧
    (GetProducts http1 fuel).trace.map (fun x => x.req) =
      (GetProducts http2 fuel).trace.map (fun x => x.req) := by
  obtain ⟨hres, herr, hP, hL⟩ := h 0 firstRequest ProductResponse.zero ProductResponse.zero rfl rfl
  have hokeq := ok_congr _ _ hres herr
  rw [GetProducts_eq, GetProducts_eq]
  by_cases hok : (http1 0 firstRequest ProductResponse.zero).ok = true
  · have hok' : (http2 0 firstRequest ProductResponse.zero).ok = true := by rw [← hokeq]; exact hok
    rw [checked_ok _ _ _ hok, checked_ok _ _ _ hok']
    obtain ⟨h1, h2⟩ := loop_agree http1 http2 h fuel 1 0 30 _ _ [] hP hL
    simp only [Run.after, List.map_cons, h1, h2, and_self]
  · have hok2 : (http1 0 firstRequest ProductResponse.zero).ok = false := by simpa using hok
    have hok2' : (http2 0 firstRequest ProductResponse.zero).ok = false := by
      rw [← hokeq]; exact hok2
    rw [checked_not_ok _ _ _ hok2, checked_not_ok _ _ _ hok2']
    simp only [Run.after, List.map_cons, List.map_nil, and_true]
    exact abortWith_congr _ _ _ hres herr

/-- C24 on the catalog of 74 products, served once with its true total and skip and
once with `total = 7` and `skip = 9` in every response. -/
theorem GetProducts_ignores_total_skip_witness :
    (GetProducts (withTotalSkip 7 9 (pagedServer (catalogOf 74))) 5).exec =
      .returned (catalogOf 74) none ∧
    (GetProducts (pagedServer (catalogOf 74)) 5).trace.map (fun x => x.req) =
      (GetProducts (withTotalSkip 7 9 (pagedServer (catalogOf 74))) 5).trace.map
        (fun x => x.req) ∧
    (GetProducts (pagedServer (catalogOf 74)) 5).trace.map
      (fun x => (x.out.result.Total.val, x.out.result.Skip.val)) =
      [(74, 0), (74, 0), (74, 30), (74, 60)] ∧
    (GetProducts (withTotalSkip 7 9 (pagedServer (catalogOf 74))) 5).trace.map
      (fun x => (x.out.result.Total.val, x.out.result.Skip.val)) =
      [(7, 9), (7, 9), (7, 9), (7, 9)] :=
  have h := GetProducts_ignores_total_skip (pagedServer (catalogOf 74))
    (withTotalSkip 7 9 (pagedServer (catalogOf 74)))
    (fun _ _ _ _ _ _ => ⟨rfl, rfl, rfl, rfl⟩) 5
  ⟨h.1.symm.trans (by decide), h.2, by decide, by decide⟩

/-- A call of `GetProducts` that returns without error appended what the result
target held after each of its paginated exchanges, of which there is at least
one. -/
theorem GetProducts_success (http : Transport ProductResponse) (fuel : Nat)
    (ps : List Product) (h : (GetProducts http fuel).exec = .returned ps none) :
    ps = pagesOf (GetProducts http fuel).trace.tail ∧
    ∃ T0 x, (GetProducts http fuel).trace.tail = T0 ++ [x] ∧ x.out.result.Limit ≠ 30 := by
  rcases GetProducts_shape http fuel with ⟨hall, hex | hex⟩ | ⟨T0, y, _, _, hy, hex⟩
  · rw [h] at hex
    refine ⟨by injection hex, ?_⟩
    have hok0 := hall { req := firstRequest, out := http 0 firstRequest ProductResponse.zero }
      (by rw [GetProducts_eq]; simp [Run.after])
    rw [GetProducts_eq, checked_ok _ _ _ hok0] at h ⊢
    simp only [Run.after, List.tail_cons] at h ⊢
    exact loop_last http fuel 1 0 _ [] ps h
  · rw [h] at hex
    exact absurd hex (by simp)
  · rw [h] at hex
    exact absurd hex.symm (abortWith_ne_success _ _ _ hy)

/-- Every exchange of `GetProducts` after the first carries `limit=30` and a `skip`. -/
theorem GetProducts_tail_paginated (http : Transport ProductResponse) (fuel : Nat)
    (x : Exchange ProductResponse) (hx : x ∈ (GetProducts http fuel).trace.tail) :
    ∃ skip : Int, x.req = pageRequest 30 skip := by
  obtain ⟨i, hi⟩ := List.mem_iff_getElem?.1 hx
  have hi2 : (GetProducts http fuel).trace[i + 1]? = some x := by
    rw [GetProducts_eq] at hi ⊢
    simpa [Run.after] using hi
  obtain ⟨_, hT⟩ := GetProducts_tail http fuel i x hi2
  rw [hT, List.getElem?_cons_succ] at hi2
  exact ⟨_, (loop_request http fuel 1 0 30 _ [] i x (by decide) hi2).1⟩

/-- The requests of `GetProducts`: the first is always the parameterless GET of
`/products`; when it is answered without error a paginated request
`limit=30&skip=0` follows, whatever limit the first response reported; every later
request is a paginated one; a call that returns without error received at least
one paginated response, so with `k` paginated responses it issued `k + 1`
requests; and a catalog of `N` items served in pages of 30 costs `N / 30 + 2`
requests. -/
theorem GetProducts_budget (http : Transport ProductResponse) (fuel : Nat) :
    ((GetProducts http fuel).trace.head?.map (fun x => x.req) = some firstRequest ∧
      firstRequest.QueryParam = []) ∧
    ((http 0 firstRequest ProductResponse.zero).ok = true → 0 < fuel →
      (GetProducts http fuel).trace[1]?.map (fun x => x.req) = some (pageRequest 30 0)) ∧
    (∀ x ∈ (GetProducts http fuel).trace.tail, ∃ skip : Int, x.req = pageRequest 30 skip) ∧
    (∀ ps, (GetProducts http fuel).exec = .returned ps none →
      1 ≤ (GetProducts http fuel).trace.tail.length ∧
      (GetProducts http fuel).trace.length = (GetProducts http fuel).trace.tail.length + 1) ∧
    (∀ catalog, ServesCatalog http catalog → catalog.length < 2 ^ 63 →
      catalog.length / 30 < fuel →
      (GetProducts http fuel).trace.length = catalog.length / 30 + 2) := by
  refine ⟨⟨?_, rfl⟩, ?_, GetProducts_tail_paginated http fuel, ?_, ?_⟩
  · rw [GetProducts_eq]
    rfl
  · intro hok hf
    obtain ⟨f, rfl⟩ : ∃ f, fuel = f + 1 := ⟨fuel - 1, by omega⟩
    rw [GetProducts_eq, checked_ok _ _ _ hok, loop_step]
    simp only [Run.after, List.getElem?_cons_succ, List.getElem?_cons_zero, Option.map_some']
  · intro ps h
    obtain ⟨_, T0, x, hT, _⟩ := GetProducts_success http fuel ps h
    refine ⟨by rw [hT]; simp, ?_⟩
    rw [GetProducts_eq]
    simp [Run.after]
  · intro catalog hs hN hf
    obtain ⟨_, h2⟩ := GetProducts_serves http catalog hs hN fuel hf
    have h3 := congrArg List.length h2
    simpa using h3

/-- C26, on a server whose first, parameterless response carries the products
`[sampleProduct]` with `limit = 5` and whose paginated response is an empty JSON
object: two requests are issued, the parameterless one and `limit=30&skip=0`; the
paginated body carries no products; and the call returns `[sampleProduct]`, the
decoded content of the first response. -/
theorem first_response_returned :
    (thenEmptyBodies [sampleProduct] 5 0).2.products = some [sampleProduct] ∧
    (thenEmptyBodies [sampleProduct] 5 1).2.products = none ∧
    (GetProducts (pageTransport (thenEmptyBodies [sampleProduct] 5)) 2).trace.map
      (fun x => x.req) = [firstRequest, pageRequest 30 0] ∧
    (GetProducts (pageTransport (thenEmptyBodies [sampleProduct] 5)) 2).trace.map
      (fun x => x.out.result.Products) = [[sampleProduct], [sampleProduct]] ∧
    (GetProducts (pageTransport (thenEmptyBodies [sampleProduct] 5)) 2).exec =
      .returned [sampleProduct] none := by
  decide

/-! ## The shared result value: the claim -/

/-- C28, on two servers that differ only in the body of their first response
(products `[sampleProduct]` with `limit = 30` against products `[Product.zero]`
with `limit = 5`) and answer every later request with an empty JSON object:
after the first paginated response the one call appends `[sampleProduct]` and goes
on, the other appends `[Product.zero]` and stops; the first response has leaked
into the later page. -/
theorem shared_result_leaks :
    ((fun n => thenEmptyBodies [sampleProduct] 30 (n + 1)) =
      (fun n => thenEmptyBodies [Product.zero] 5 (n + 1))) ∧
    (GetProducts (pageTransport (thenEmptyBodies [sampleProduct] 30)) 2).trace.map
      (fun x => (x.out.result.Products, x.out.result.Limit.val)) =
      [([sampleProduct], 30), ([sampleProduct], 30), ([sampleProduct], 30)] ∧
    (GetProducts (pageTransport (thenEmptyBodies [sampleProduct] 30)) 2).exec = .running ∧
    (GetProducts (pageTransport (thenEmptyBodies [Product.zero] 5)) 2).trace.map
      (fun x => (x.out.result.Products, x.out.result.Limit.val)) =
      [([Product.zero], 5), ([Product.zero], 5)] ∧
    (GetProducts (pageTransport (thenEmptyBodies [Product.zero] 5)) 2).exec =
      .returned [Product.zero] none := by
  refine ⟨funext fun n => ?_, by decide, by decide, by decide, by decide⟩
  simp [thenEmptyBodies]

end Dummyjson
